import Mathlib

/-!
HyperDbg user-mode debugger (`hprdbghv/code/debugger/user-level/Ud.c`)

A shallow embedding of the routines of `Ud.c` and proofs about them.

* Globals (`g_UserDebuggerState`, `g_SeedOfUserDebuggingDetails`,
  `g_ThreadDebuggingDetailsListHead`, `g_GuestState`) are fields of `State`.
* The VMCS of the executing processor is the three fields `GUEST_RIP`,
  `GUEST_RSP`, `GUEST_RFLAGS`; `__vmx_vmread` / `__vmx_vmwrite` read / write them.
* A `PUSERMODE_DEBUGGING_THREADS_DETAILS` pointer is the position of the record
  in the thread debugging details list; `NULL` is `none`.
* Calls that leave `Ud.c` (`LogSendBuffer`, the safe memory read, the
  broadcast) are recorded in call traces kept in `State`.
* Constants whose `#define` is in headers outside the sources at hand are
  fields of `Constants`.
-/

namespace HyperDbg

/-! ## Data model -/

/-- The enum `DEBUGGER_UD_COMMAND_ACTION_TYPE`: `NONE` is the empty sentinel,
`CONTINUE` the one kind `UdPerformCommand` knows, `OTHER n` any other value. -/
inductive DEBUGGER_UD_COMMAND_ACTION_TYPE where
  | NONE
  | CONTINUE
  | OTHER (code : Nat)
  deriving DecidableEq, Repr, Inhabited

/-- The struct `DEBUGGER_UD_COMMAND_ACTION`: one mailbox slot (also the payload
of a command packet). -/
structure DEBUGGER_UD_COMMAND_ACTION where
  ActionType : DEBUGGER_UD_COMMAND_ACTION_TYPE
  OptionalParam1 : Nat
  OptionalParam2 : Nat
  OptionalParam3 : Nat
  OptionalParam4 : Nat
  deriving DecidableEq, Repr

instance : Inhabited DEBUGGER_UD_COMMAND_ACTION :=
  ⟨⟨DEBUGGER_UD_COMMAND_ACTION_TYPE.NONE, 0, 0, 0, 0⟩⟩

/-- The struct `DEBUGGER_UD_COMMAND_PACKET`: a command request addressed by
token. -/
structure DEBUGGER_UD_COMMAND_PACKET where
  ThreadDebuggingDetailToken : Nat
  UdAction : DEBUGGER_UD_COMMAND_ACTION
  deriving DecidableEq, Repr

/-- The struct `USERMODE_DEBUGGING_THREADS_DETAILS`, restricted to the fields
`Ud.c` and the two lookups touch. `UdAction` is the array
`UdAction[MAX_USER_ACTIONS_FOR_THREADS]`. -/
structure USERMODE_DEBUGGING_THREADS_DETAILS where
  Token : Nat
  ProcessId : Nat
  ThreadId : Nat
  UsermodeReservedBuffer : Nat
  IsPaused : Bool
  GuestRip : Nat
  GuestRsp : Nat
  UdAction : List DEBUGGER_UD_COMMAND_ACTION
  deriving DecidableEq, Repr

/-- The part of `DEBUGGER_TRIGGERED_EVENT_DETAILS` read by `Ud.c`. -/
structure DEBUGGER_TRIGGERED_EVENT_DETAILS where
  Tag : Nat
  deriving DecidableEq, Repr

/-- The general purpose register snapshot `GUEST_REGS`, copied as a block. -/
structure GUEST_REGS where
  regs : List Nat
  deriving DecidableEq, Repr

/-- The struct `DEBUGGEE_UD_PAUSED_PACKET`. `InstructionBytesOnRip` holds the
bytes the safe read copied to the start of the zeroed buffer. -/
structure DEBUGGEE_UD_PAUSED_PACKET where
  Rip : Nat
  Is32BitAddress : Bool
  Rflags : Nat
  EventTag : Nat
  ReadInstructionLen : Nat
  InstructionBytesOnRip : List Nat
  GuestRegs : GUEST_REGS
  deriving DecidableEq, Repr

/-- The fields of `g_GuestState[core]` used by `Ud.c`
(`InstructionLengthHint` is `DebuggingState.InstructionLengthHint`). -/
structure VIRTUAL_MACHINE_STATE where
  IsOnVmxRootMode : Bool
  IncrementRip : Bool
  LastVmexitRip : Nat
  InstructionLengthHint : Nat
  deriving DecidableEq, Repr

/-- Constants defined in headers that are not part of the sources at hand. -/
structure Constants where
  MAX_USER_ACTIONS_FOR_THREADS : Nat
  MAXIMUM_INSTR_SIZE : Nat
  DebuggerThreadDebuggingTagStartSeed : Nat
  deriving DecidableEq, Repr

/-- Modelled from the spec: `PAGE_SIZE` comes from the platform headers, not
from the sources at hand; pages are 4096 bytes (the mask `0xfff` of the code). -/
def PAGE_SIZE : Nat := 4096

/-- Results of the collaborators called by `Ud.c` whose code is elsewhere:
the addressing mode query, the safe memory read (address and size to the bytes
it managed to copy), the result of `LogSendBuffer` and of the attaching
initialisation. -/
structure Collaborators where
  KdIsGuestOnUsermode32Bit : Bool
  MemoryMapperReadMemorySafeOnTargetProcess : Nat → Nat → List Nat
  LogSendBufferResult : DEBUGGEE_UD_PAUSED_PACKET → Bool
  AttachingInitializeResult : Bool

/-- The global state seen by `Ud.c` on the executing processor. -/
structure State where
  g_UserDebuggerState : Bool
  g_SeedOfUserDebuggingDetails : Nat
  g_ThreadDebuggingDetailsListHead : List USERMODE_DEBUGGING_THREADS_DETAILS
  g_GuestState : Nat → VIRTUAL_MACHINE_STATE
  /-- Value of `KeGetCurrentProcessorNumber()`. -/
  CurrentProcessorNumber : Nat
  /-- Value of `PsGetCurrentProcessId()`. -/
  CurrentProcessId : Nat
  /-- Value of `PsGetCurrentThreadId()`. -/
  CurrentThreadId : Nat
  GUEST_RIP : Nat
  GUEST_RSP : Nat
  GUEST_RFLAGS : Nat
  /-- Trace of the `LogSendBuffer` calls, oldest first. -/
  LogSendBufferCalls : List DEBUGGEE_UD_PAUSED_PACKET
  /-- Trace of the safe memory reads (address, size), oldest first. -/
  MemoryReadCalls : List (Nat × Nat)
  /-- Number of `BroadcastEnableDbAndBpExitingAllCores` calls. -/
  BroadcastCalls : Nat
  /-- Trace of the actions handed to `UdPerformCommand`, oldest first. -/
  PerformedCommands : List DEBUGGER_UD_COMMAND_ACTION

/-- The value a `BOOLEAN` function hands back: `some b` after `return b`,
`none` when control reaches the closing brace without a `return`. -/
abbrev BOOLEAN_RESULT := Option Bool

/-! ## Registry lookups -/

/-- Position of the first record satisfying `p`, walking the list from its
head. -/
def findFirst (p : USERMODE_DEBUGGING_THREADS_DETAILS → Bool) :
    List USERMODE_DEBUGGING_THREADS_DETAILS → Option Nat
  | [] => none
  | s :: rest => if p s then some 0 else (findFirst p rest).map Nat.succ

/-- Modelled from the spec: `AttachingFindThreadDebuggingDetailsByToken` is
declared outside the sources at hand; `FindByToken(token) -> Session?` walks
the registry and yields the first session with that token, or nothing. -/
def AttachingFindThreadDebuggingDetailsByToken (st : State) (Token : Nat) : Option Nat :=
  findFirst (fun s => decide (s.Token = Token)) st.g_ThreadDebuggingDetailsListHead

/-- Modelled from the spec: `AttachingFindThreadDebuggingDetailsByProcessIdAndThreadId`
is declared outside the sources at hand; `FindByProcessAndThread(pid, tid) -> Session?`
yields the first session with these identifiers, or nothing. -/
def AttachingFindThreadDebuggingDetailsByProcessIdAndThreadId (st : State)
    (ProcessId ThreadId : Nat) : Option Nat :=
  findFirst (fun s => decide (s.ProcessId = ProcessId) && decide (s.ThreadId = ThreadId))
    st.g_ThreadDebuggingDetailsListHead

/-- Read through a session pointer. -/
def State.deref (st : State) (p : Nat) : Option USERMODE_DEBUGGING_THREADS_DETAILS :=
  st.g_ThreadDebuggingDetailsListHead[p]?

/-- Write through a session pointer. -/
def State.store (st : State) (p : Nat) (s : USERMODE_DEBUGGING_THREADS_DETAILS) : State :=
  { st with g_ThreadDebuggingDetailsListHead := st.g_ThreadDebuggingDetailsListHead.set p s }

/-! ## The routines of `Ud.c` -/

/-- `UdContinueThread` (Ud.c 93-111): restore RIP and RSP, clear `IncrementRip`
of the executing core, clear `IsPaused`. A pointer that is not a record of the
list is never passed by the callers; the state is then left as it is. -/
def UdContinueThread (st : State) (ThreadDebuggingDetails : Nat) : State :=
  match st.deref ThreadDebuggingDetails with
  | none => st
  | some s =>
    let st1 := { st with GUEST_RIP := s.GuestRip }
    let st2 := { st1 with GUEST_RSP := s.GuestRsp }
    let st3 := { st2 with
      g_GuestState := Function.update st2.g_GuestState st2.CurrentProcessorNumber
        { st2.g_GuestState st2.CurrentProcessorNumber with IncrementRip := false } }
    st3.store ThreadDebuggingDetails { s with IsPaused := false }

/-- `UdPerformCommand` (Ud.c 125-157). The call is recorded in
`PerformedCommands`. -/
def UdPerformCommand (st : State) (ThreadDebuggingDetails : Nat)
    (UserAction : DEBUGGER_UD_COMMAND_ACTION_TYPE)
    (OptionalParam1 OptionalParam2 OptionalParam3 OptionalParam4 : Nat) : Bool × State :=
  let st0 := { st with PerformedCommands := st.PerformedCommands ++
    [⟨UserAction, OptionalParam1, OptionalParam2, OptionalParam3, OptionalParam4⟩] }
  match UserAction with
  | DEBUGGER_UD_COMMAND_ACTION_TYPE.CONTINUE =>
    (true, UdContinueThread st0 ThreadDebuggingDetails)
  | _ => (false, st0)

/-- The body of the `if` inside the loop of `UdCheckForCommand` (Ud.c 195-216)
at slot `i`: perform the command of the slot, then clear the slot. `s` is the
record read through the pointer when the slot was tested. -/
def UdCheckForCommandApply (ThreadDebuggingDetails : Nat) (i : Nat)
    (s : USERMODE_DEBUGGING_THREADS_DETAILS) (st : State) : State :=
  let a := s.UdAction.getD i default
  let st1 := (UdPerformCommand st ThreadDebuggingDetails a.ActionType
    a.OptionalParam1 a.OptionalParam2 a.OptionalParam3 a.OptionalParam4).2
  match st1.deref ThreadDebuggingDetails with
  | none => st1
  | some s1 =>
    let slot := s1.UdAction.getD i default
    let slot1 := { slot with OptionalParam1 := 0 }
    let slot2 := { slot1 with OptionalParam2 := 0 }
    let slot3 := { slot2 with OptionalParam3 := 0 }
    let slot4 := { slot3 with OptionalParam4 := 0 }
    let slot5 := { slot4 with ActionType := DEBUGGER_UD_COMMAND_ACTION_TYPE.NONE }
    st1.store ThreadDebuggingDetails { s1 with UdAction := s1.UdAction.set i slot5 }

/-- The `for` loop of `UdCheckForCommand` (Ud.c 191-223), entered at index `i`
with `n` iterations left; the first occupied slot is applied and the loop is
left (`break`). -/
def UdCheckForCommandLoop (ThreadDebuggingDetails : Nat) : Nat → Nat → State → State
  | 0, _, st => st
  | n + 1, i, st =>
    match st.deref ThreadDebuggingDetails with
    | none => st
    | some s =>
      if (s.UdAction.getD i default).ActionType ≠ DEBUGGER_UD_COMMAND_ACTION_TYPE.NONE then
        UdCheckForCommandApply ThreadDebuggingDetails i s st
      else
        UdCheckForCommandLoop ThreadDebuggingDetails n (i + 1) st

/-- `UdCheckForCommand` (Ud.c 164-229). -/
def UdCheckForCommand (K : Constants) (st : State) : Bool × State :=
  match AttachingFindThreadDebuggingDetailsByProcessIdAndThreadId st
      st.CurrentProcessId st.CurrentThreadId with
  | none => (false, st)
  | some p =>
    match st.deref p with
    | none => (false, st)
    | some s =>
      if !s.IsPaused then (false, st)
      else (true, UdCheckForCommandLoop p K.MAX_USER_ACTIONS_FOR_THREADS 0 st)

/-- The `for` loop of `UdDispatchUsermodeCommands` (Ud.c 259-279), entered at
index `i` with `n` iterations left; yields `CommandApplied` and the array. -/
def UdDispatchUsermodeCommandsLoop (req : DEBUGGER_UD_COMMAND_ACTION) :
    Nat → Nat → List DEBUGGER_UD_COMMAND_ACTION → Bool × List DEBUGGER_UD_COMMAND_ACTION
  | 0, _, acts => (false, acts)
  | n + 1, i, acts =>
    let slot := acts.getD i default
    if slot.ActionType = DEBUGGER_UD_COMMAND_ACTION_TYPE.NONE then
      let slot1 := { slot with OptionalParam1 := req.OptionalParam1 }
      let slot2 := { slot1 with OptionalParam2 := req.OptionalParam2 }
      let slot3 := { slot2 with OptionalParam3 := req.OptionalParam3 }
      let slot4 := { slot3 with OptionalParam4 := req.OptionalParam4 }
      let slot5 := { slot4 with ActionType := req.ActionType }
      (true, acts.set i slot5)
    else
      UdDispatchUsermodeCommandsLoop req n (i + 1) acts

/-- `UdDispatchUsermodeCommands` (Ud.c 237-282). -/
def UdDispatchUsermodeCommands (K : Constants) (st : State)
    (ActionRequest : DEBUGGER_UD_COMMAND_PACKET) : Bool × State :=
  match AttachingFindThreadDebuggingDetailsByToken st ActionRequest.ThreadDebuggingDetailToken with
  | none => (false, st)
  | some p =>
    match st.deref p with
    | none => (false, st)
    | some s =>
      let r := UdDispatchUsermodeCommandsLoop ActionRequest.UdAction
        K.MAX_USER_ACTIONS_FOR_THREADS 0 s.UdAction
      (r.1, st.store p { s with UdAction := r.2 })

/-- `UdSpinThreadOnNop` (Ud.c 290-323). Only the token-not-found path has a
`return`; the other path ends at the closing brace. -/
def UdSpinThreadOnNop (st : State) (Token : Nat) : BOOLEAN_RESULT × State :=
  match AttachingFindThreadDebuggingDetailsByToken st Token with
  | none => (some false, st)
  | some p =>
    match st.deref p with
    | none => (some false, st)
    | some s =>
      let s1 := { s with GuestRip := st.GUEST_RIP }
      let s2 := { s1 with GuestRsp := st.GUEST_RSP }
      let st1 := { st with GUEST_RIP := s2.UsermodeReservedBuffer }
      (none, st1.store p { s2 with IsPaused := true })

/-- The computation of `ExitInstructionLength` (Ud.c 385-418):
`SizeOfSafeBufferToRead` is a `UINT64`, `ExitInstructionLength` a `ULONG`. -/
def ExitInstructionLength (K : Constants) (InstructionLengthHint LastVmexitRip : Nat) : Nat :=
  if InstructionLengthHint ≠ 0 then
    InstructionLengthHint % 2 ^ 32
  else
    let s0 := LastVmexitRip &&& 0xfff
    let s1 := (s0 + K.MAXIMUM_INSTR_SIZE) % 2 ^ 64
    let s2 :=
      if s1 ≥ PAGE_SIZE then
        let t := (s1 + 2 ^ 64 - PAGE_SIZE) % 2 ^ 64
        (K.MAXIMUM_INSTR_SIZE % 2 ^ 64 + 2 ^ 64 - t) % 2 ^ 64
      else
        K.MAXIMUM_INSTR_SIZE % 2 ^ 64
    s2 % 2 ^ 32

/-- `UdHandleBreakpointAndDebugBreakpoints` (Ud.c 336-450). `EventDetails` is
`none` for `NULL`; the pausing reason is not used by the body. -/
def UdHandleBreakpointAndDebugBreakpoints (K : Constants) (C : Collaborators) (st : State)
    (CurrentCore : Nat) (ThreadDebuggingToken : Nat) (GuestRegs : GUEST_REGS)
    (_Reason : Nat) (EventDetails : Option DEBUGGER_TRIGGERED_EVENT_DETAILS) :
    BOOLEAN_RESULT × State :=
  if !(st.g_GuestState CurrentCore).IsOnVmxRootMode then (some false, st)
  else
    let P0 : DEBUGGEE_UD_PAUSED_PACKET := ⟨0, false, 0, 0, 0, [], ⟨[]⟩⟩
    let P1 := { P0 with Rip := (st.g_GuestState CurrentCore).LastVmexitRip }
    let P2 := { P1 with Is32BitAddress := C.KdIsGuestOnUsermode32Bit }
    let P3 := { P2 with Rflags := st.GUEST_RFLAGS }
    let P4 := match EventDetails with
      | some e => { P3 with EventTag := e.Tag }
      | none => P3
    let len := ExitInstructionLength K (st.g_GuestState CurrentCore).InstructionLengthHint
      (st.g_GuestState CurrentCore).LastVmexitRip
    let P5 := { P4 with ReadInstructionLen := len }
    let bytes := (C.MemoryMapperReadMemorySafeOnTargetProcess
      (st.g_GuestState CurrentCore).LastVmexitRip len).take len
    let st1 := { st with MemoryReadCalls :=
      st.MemoryReadCalls ++ [((st.g_GuestState CurrentCore).LastVmexitRip, len)] }
    let P6 := { P5 with InstructionBytesOnRip := bytes }
    let P7 := { P6 with GuestRegs := GuestRegs }
    let st2 := { st1 with LogSendBufferCalls := st1.LogSendBufferCalls ++ [P7] }
    UdSpinThreadOnNop st2 ThreadDebuggingToken

/-- Modelled from the spec: `AttachingRemoveAndFreeAllThreadDebuggingDetails` is
declared outside the sources at hand; `RemoveAll()` releases every session, so
the registry is empty afterwards. -/
def AttachingRemoveAndFreeAllThreadDebuggingDetails (st : State) : State :=
  { st with g_ThreadDebuggingDetailsListHead := [] }

/-- `UdInitializeUserDebugger` (Ud.c 20-60). The function is `VOID`; the result
of `AttachingInitialize` comes from the collaborators. -/
def UdInitializeUserDebugger (K : Constants) (C : Collaborators) (st : State) : State :=
  if st.g_UserDebuggerState then st
  else if !C.AttachingInitializeResult then st
  else
    let st1 := { st with g_SeedOfUserDebuggingDetails := K.DebuggerThreadDebuggingTagStartSeed }
    let st2 := { st1 with g_ThreadDebuggingDetailsListHead := [] }
    let st3 := { st2 with BroadcastCalls := st2.BroadcastCalls + 1 }
    { st3 with g_UserDebuggerState := true }

/-- `UdUninitializeUserDebugger` (Ud.c 68-84). -/
def UdUninitializeUserDebugger (st : State) : State :=
  if st.g_UserDebuggerState then
    AttachingRemoveAndFreeAllThreadDebuggingDetails { st with g_UserDebuggerState := false }
  else st

/-- Every mailbox has the declared number of slots. -/
def WellFormed (K : Constants) (st : State) : Prop :=
  ∀ s ∈ st.g_ThreadDebuggingDetailsListHead, s.UdAction.length = K.MAX_USER_ACTIONS_FOR_THREADS

instance (K : Constants) (st : State) : Decidable (WellFormed K st) :=
  inferInstanceAs (Decidable (∀ s ∈ st.g_ThreadDebuggingDetailsListHead,
    s.UdAction.length = K.MAX_USER_ACTIONS_FOR_THREADS))

/-- The empty slot: kind `NONE`, parameters `NULL`. -/
def emptySlot : DEBUGGER_UD_COMMAND_ACTION :=
  ⟨DEBUGGER_UD_COMMAND_ACTION_TYPE.NONE, 0, 0, 0, 0⟩

/-- Number of occupied slots of a mailbox. -/
def occupied (acts : List DEBUGGER_UD_COMMAND_ACTION) : Nat :=
  (acts.filter (fun a => decide (a.ActionType ≠ DEBUGGER_UD_COMMAND_ACTION_TYPE.NONE))).length

/-- One step of a scenario against the session with token `T`: a command
request for the session, a poll by the executing thread, or a pause of the
session. -/
inductive MailboxOp where
  | enqueue (a : DEBUGGER_UD_COMMAND_ACTION)
  | poll
  | pause
  deriving DecidableEq, Repr

/-- Run one scenario step: `enqueue a` calls `UdDispatchUsermodeCommands` with
the packet `(T, a)`, `poll` calls `UdCheckForCommand`, `pause` calls
`UdSpinThreadOnNop T`. The result of an enqueue or a poll is reported. -/
def stepOp (K : Constants) (T : Nat) (st : State) : MailboxOp → Option Bool × State
  | MailboxOp.enqueue a =>
    let r := UdDispatchUsermodeCommands K st ⟨T, a⟩
    (some r.1, r.2)
  | MailboxOp.poll =>
    let r := UdCheckForCommand K st
    (some r.1, r.2)
  | MailboxOp.pause => (none, (UdSpinThreadOnNop st T).2)

/-- Run a scenario, collecting the results of its enqueues and polls in order. -/
def runOps (K : Constants) (T : Nat) : State → List MailboxOp → List Bool × State
  | st, [] => ([], st)
  | st, op :: ops =>
    let r := stepOp K T st op
    let rest := runOps K T r.2 ops
    (r.1.toList ++ rest.1, rest.2)

/-- The session with token `T` is the record behind `p` and its mailbox is
`acts`. -/
def SessionAt (st : State) (T p : Nat) (acts : List DEBUGGER_UD_COMMAND_ACTION) : Prop :=
  AttachingFindThreadDebuggingDetailsByToken st T = some p ∧
  ∃ s, st.deref p = some s ∧ s.UdAction = acts

/-- The executing thread is tracked by the record behind `p` and the commands
performed so far are `perf`. -/
def PolledAt (st : State) (p : Nat) (perf : List DEBUGGER_UD_COMMAND_ACTION) : Prop :=
  AttachingFindThreadDebuggingDetailsByProcessIdAndThreadId st
    st.CurrentProcessId st.CurrentThreadId = some p ∧
  st.PerformedCommands = perf

/-- The scenario in which the session is paused before each of its polls. -/
def withPauses : List MailboxOp → List MailboxOp
  | [] => []
  | MailboxOp.enqueue a :: ops => MailboxOp.enqueue a :: withPauses ops
  | MailboxOp.poll :: ops => MailboxOp.pause :: MailboxOp.poll :: withPauses ops
  | MailboxOp.pause :: ops => MailboxOp.pause :: withPauses ops

/-- The actions a scenario enqueues, in the order of the enqueues. -/
def enqueuedOf : List MailboxOp → List DEBUGGER_UD_COMMAND_ACTION
  | [] => []
  | MailboxOp.enqueue a :: ops => a :: enqueuedOf ops
  | MailboxOp.poll :: ops => enqueuedOf ops
  | MailboxOp.pause :: ops => enqueuedOf ops

/-- What a first-in first-out queue that holds `queue` hands to the polls of a
scenario: an enqueue appends at the back, a poll takes the oldest entry (and
nothing from an empty queue). -/
def fifoApplied : List DEBUGGER_UD_COMMAND_ACTION → List MailboxOp →
    List DEBUGGER_UD_COMMAND_ACTION
  | _, [] => []
  | queue, MailboxOp.enqueue a :: ops => fifoApplied (queue ++ [a]) ops
  | [], MailboxOp.poll :: ops => fifoApplied [] ops
  | a :: queue, MailboxOp.poll :: ops => a :: fifoApplied queue ops
  | queue, MailboxOp.pause :: ops => fifoApplied queue ops

/-- A scenario without overtaking, for a mailbox of `cap` slots that holds `q`
actions: every enqueue carries a kind other than `NONE` and finds room, and no
enqueue is made while actions are queued behind slots freed by a poll (`dirty`
tells that a poll has taken an action since the mailbox was last empty). -/
def disciplined (cap : Nat) : Bool → Nat → List MailboxOp → Bool
  | _, _, [] => true
  | dirty, q, MailboxOp.enqueue a :: ops =>
    decide (a.ActionType ≠ DEBUGGER_UD_COMMAND_ACTION_TYPE.NONE) &&
      (if q = 0 then decide (0 < cap) && disciplined cap false 1 ops
       else !dirty && (decide (q < cap) && disciplined cap false (q + 1) ops))
  | dirty, q, MailboxOp.poll :: ops =>
    if q = 0 then disciplined cap dirty 0 ops else disciplined cap true (q - 1) ops
  | dirty, q, MailboxOp.pause :: ops => disciplined cap dirty q ops

/-! ## Concrete configurations used to evaluate the routines -/

/-- A configuration with three slots per mailbox and 16 byte instructions. -/
def K3 : Constants := ⟨3, 16, 1⟩

/-- A session with token 7 for thread 20 of process 10, not paused, with the
given mailbox. -/
def demoSession (acts : List DEBUGGER_UD_COMMAND_ACTION) : USERMODE_DEBUGGING_THREADS_DETAILS :=
  { Token := 7, ProcessId := 10, ThreadId := 20, UsermodeReservedBuffer := 0x5000,
    IsPaused := false, GuestRip := 0, GuestRsp := 0, UdAction := acts }

/-- A state whose registry is the given list, executing thread 20 of process 10
on core 0 in vmx-root mode, stopped at `0x401ffa`. -/
def demoStateOf (l : List USERMODE_DEBUGGING_THREADS_DETAILS) : State :=
  { g_UserDebuggerState := true
    g_SeedOfUserDebuggingDetails := 8
    g_ThreadDebuggingDetailsListHead := l
    g_GuestState := fun _ => ⟨true, true, 0x401ffa, 0⟩
    CurrentProcessorNumber := 0
    CurrentProcessId := 10
    CurrentThreadId := 20
    GUEST_RIP := 0x401ffa
    GUEST_RSP := 0x7ffe0000
    GUEST_RFLAGS := 0x246
    LogSendBufferCalls := []
    MemoryReadCalls := []
    BroadcastCalls := 1
    PerformedCommands := [] }

/-- The state with the one session `demoSession` and an empty mailbox of
three slots. -/
def demoState : State := demoStateOf [demoSession [emptySlot, emptySlot, emptySlot]]

/-- Collaborators for which the safe read copies nothing. -/
def demoCollaborators : Collaborators :=
  { KdIsGuestOnUsermode32Bit := false
    MemoryMapperReadMemorySafeOnTargetProcess := fun _ _ => []
    LogSendBufferResult := fun _ => true
    AttachingInitializeResult := true }

/-- A `CONTINUE` action tagged by its first parameter. -/
def continueAction (n : Nat) : DEBUGGER_UD_COMMAND_ACTION :=
  ⟨DEBUGGER_UD_COMMAND_ACTION_TYPE.CONTINUE, n, 0, 0, 0⟩

/-- The state with the one session of `demoSession`, paused, whose mailbox
holds two requests behind a free first slot. -/
def demoPausedState : State :=
  demoStateOf [{ demoSession [emptySlot, continueAction 1, continueAction 2] with
    IsPaused := true }]

/-- The state of `demoState` with the given vmx-root flag and length hint on
every core. -/
def demoTrapState (root : Bool) (hint : Nat) : State :=
  { demoState with g_GuestState := fun _ => ⟨root, true, 0x401ffa, hint⟩ }

/-- Collaborators for which the safe read copies two bytes only and the
attaching initialisation fails. -/
def demoPartialCollaborators : Collaborators :=
  { KdIsGuestOnUsermode32Bit := false
    MemoryMapperReadMemorySafeOnTargetProcess := fun _ _ => [0xcc, 0x90]
    LogSendBufferResult := fun _ => false
    AttachingInitializeResult := false }

/-- A state in which the user debugger is not active: stale seed and session,
no broadcast yet. -/
def demoInactiveState : State :=
  { demoState with g_UserDebuggerState := false, BroadcastCalls := 0 }

/-- An action of a kind `UdPerformCommand` does not know. -/
def unknownAction : DEBUGGER_UD_COMMAND_ACTION :=
  ⟨DEBUGGER_UD_COMMAND_ACTION_TYPE.OTHER 9, 1, 2, 3, 4⟩

/-- The state with the one session of `demoSession`, paused, whose first
occupied slot holds `unknownAction`. -/
def demoUnknownKindState : State :=
  demoStateOf [{ demoSession [emptySlot, unknownAction, continueAction 2] with
    IsPaused := true }]

/-! ## Lemmas on the registry -/

theorem findFirst_some {p : USERMODE_DEBUGGING_THREADS_DETAILS → Bool}
    {l : List USERMODE_DEBUGGING_THREADS_DETAILS} {i : Nat} (h : findFirst p l = some i) :
    ∃ s, l[i]? = some s ∧ p s = true ∧ ∀ j < i, ∀ t, l[j]? = some t → p t = false := by
  induction l generalizing i with
  | nil => simp [findFirst] at h
  | cons a rest ih =>
    unfold findFirst at h
    by_cases hp : p a = true
    · simp [hp] at h
      subst h
      exact ⟨a, by simp, hp, by intro j hj; omega⟩
    · simp [hp] at h
      obtain ⟨k, hk, rfl⟩ := h
      obtain ⟨s, hs, hps, hmin⟩ := ih hk
      refine ⟨s, by simpa using hs, hps, ?_⟩
      intro j hj t ht
      cases j with
      | zero => simp at ht; subst ht; simpa using hp
      | succ j => exact hmin j (by omega) t (by simpa using ht)

theorem findFirst_eq_none_iff {p : USERMODE_DEBUGGING_THREADS_DETAILS → Bool}
    {l : List USERMODE_DEBUGGING_THREADS_DETAILS} :
    findFirst p l = none ↔ ∀ s ∈ l, p s = false := by
  induction l with
  | nil => simp [findFirst]
  | cons a rest ih =>
    unfold findFirst
    by_cases hp : p a = true
    · simp [hp]
    · simp [hp, ih]

theorem findFirst_set {p : USERMODE_DEBUGGING_THREADS_DETAILS → Bool}
    {l : List USERMODE_DEBUGGING_THREADS_DETAILS} {j : Nat}
    {s t : USERMODE_DEBUGGING_THREADS_DETAILS} (hs : l[j]? = some s) (hp : p t = p s) :
    findFirst p (l.set j t) = findFirst p l := by
  induction l generalizing j with
  | nil => simp
  | cons a rest ih =>
    cases j with
    | zero =>
      simp at hs
      subst hs
      simp [findFirst, hp]
    | succ j =>
      simp at hs
      simp [findFirst, ih hs]

theorem deref_of_findByToken {st : State} {Token p : Nat}
    (h : AttachingFindThreadDebuggingDetailsByToken st Token = some p) :
    ∃ s, st.deref p = some s ∧ s.Token = Token := by
  obtain ⟨s, hs, hp, _⟩ := findFirst_some h
  exact ⟨s, hs, by simpa using hp⟩

theorem deref_of_findByIds {st : State} {pid tid p : Nat}
    (h : AttachingFindThreadDebuggingDetailsByProcessIdAndThreadId st pid tid = some p) :
    ∃ s, st.deref p = some s ∧ s.ProcessId = pid ∧ s.ThreadId = tid := by
  obtain ⟨s, hs, hp, _⟩ := findFirst_some h
  exact ⟨s, hs, by simpa using hp⟩

theorem store_deref_self {st : State} {p : Nat} {s : USERMODE_DEBUGGING_THREADS_DETAILS}
    (h : st.deref p = some s) : st.store p s = st := by
  unfold State.deref at h
  unfold State.store
  have : st.g_ThreadDebuggingDetailsListHead.set p s = st.g_ThreadDebuggingDetailsListHead := by
    apply List.ext_getElem?
    intro n
    by_cases hn : p = n
    · subst hn
      rw [List.getElem?_set_self]
      simp [h]
      have := List.getElem?_eq_some.mp h
      simp [this.1] 
    · rw [List.getElem?_set_ne hn]
  rw [this]

theorem deref_store_same {st : State} {p : Nat} {s t : USERMODE_DEBUGGING_THREADS_DETAILS}
    (h : st.deref p = some s) : (st.store p t).deref p = some t := by
  unfold State.deref at h
  have hlt := (List.getElem?_eq_some.mp h).1
  simp [State.deref, State.store, List.getElem?_set_self, hlt]

theorem deref_store_other {st : State} {p q : Nat} {t : USERMODE_DEBUGGING_THREADS_DETAILS}
    (h : p ≠ q) : (st.store p t).deref q = st.deref q := by
  simp [State.deref, State.store, List.getElem?_set_ne h]

/-! ## Pause and resume -/

theorem UdSpinThreadOnNop_found {st : State} {Token p : Nat}
    {s : USERMODE_DEBUGGING_THREADS_DETAILS}
    (h : AttachingFindThreadDebuggingDetailsByToken st Token = some p)
    (hs : st.deref p = some s) :
    UdSpinThreadOnNop st Token =
      (none, ({ st with GUEST_RIP := s.UsermodeReservedBuffer }).store p
        { s with GuestRip := st.GUEST_RIP, GuestRsp := st.GUEST_RSP, IsPaused := true }) := by
  simp [UdSpinThreadOnNop, h, hs]

theorem UdSpinThreadOnNop_not_found {st : State} {Token : Nat}
    (h : AttachingFindThreadDebuggingDetailsByToken st Token = none) :
    UdSpinThreadOnNop st Token = (some false, st) := by
  simp [UdSpinThreadOnNop, h]

theorem UdContinueThread_found {st : State} {p : Nat}
    {s : USERMODE_DEBUGGING_THREADS_DETAILS} (hs : st.deref p = some s) :
    UdContinueThread st p =
      ({ st with
          GUEST_RIP := s.GuestRip
          GUEST_RSP := s.GuestRsp
          g_GuestState := Function.update st.g_GuestState st.CurrentProcessorNumber
            { st.g_GuestState st.CurrentProcessorNumber with IncrementRip := false } }).store p
        { s with IsPaused := false } := by
  simp [UdContinueThread, hs]

/-- C1: for a token that names a session, `UdSpinThreadOnNop` followed by
`UdContinueThread` on that session leaves the live guest RIP and RSP as they
were before the pause and leaves `IsPaused` false (in between the session is
paused and the live RIP is the spin address). -/
theorem C1_pause_resume_round_trip (st : State) (Token p : Nat)
    (h : AttachingFindThreadDebuggingDetailsByToken st Token = some p) :
    (∃ s1, (UdSpinThreadOnNop st Token).2.deref p = some s1 ∧ s1.IsPaused = true ∧
      (UdSpinThreadOnNop st Token).2.GUEST_RIP = s1.UsermodeReservedBuffer) ∧
    (UdContinueThread (UdSpinThreadOnNop st Token).2 p).GUEST_RIP = st.GUEST_RIP ∧
    (UdContinueThread (UdSpinThreadOnNop st Token).2 p).GUEST_RSP = st.GUEST_RSP ∧
    ∃ s2, (UdContinueThread (UdSpinThreadOnNop st Token).2 p).deref p = some s2 ∧
      s2.IsPaused = false := by
  obtain ⟨s, hs, _⟩ := deref_of_findByToken h
  rw [UdSpinThreadOnNop_found h hs]
  have h1 : (({ st with GUEST_RIP := s.UsermodeReservedBuffer } : State).store p
      { s with GuestRip := st.GUEST_RIP, GuestRsp := st.GUEST_RSP, IsPaused := true }).deref p =
      some { s with GuestRip := st.GUEST_RIP, GuestRsp := st.GUEST_RSP, IsPaused := true } :=
    deref_store_same (s := s) hs
  refine ⟨⟨_, h1, rfl, rfl⟩, ?_⟩
  rw [UdContinueThread_found h1]
  refine ⟨rfl, rfl, _, deref_store_same h1, rfl⟩

/-! ## The instruction read length -/

theorem land_fff (rip : Nat) : rip &&& 0xfff = rip % 4096 :=
  Nat.and_pow_two_sub_one_eq_mod rip 12

theorem ExitInstructionLength_no_hint (K : Constants) (rip : Nat)
    (hM : K.MAXIMUM_INSTR_SIZE + PAGE_SIZE ≤ 2 ^ 64) :
    ExitInstructionLength K 0 rip =
      min K.MAXIMUM_INSTR_SIZE (PAGE_SIZE - (rip &&& 0xfff)) := by
  have hoff : rip &&& 0xfff < 4096 := by rw [land_fff]; exact Nat.mod_lt _ (by norm_num)
  unfold ExitInstructionLength PAGE_SIZE at *
  generalize rip &&& 0xfff = off at *
  generalize K.MAXIMUM_INSTR_SIZE = M at *
  simp only [ne_eq, not_true_eq_false, if_false]
  norm_num at hM ⊢
  split_ifs with h <;> omega

/-! ## The mailbox: enqueue -/

theorem dispatchLoop_cases (req : DEBUGGER_UD_COMMAND_ACTION) (n i : Nat)
    (acts : List DEBUGGER_UD_COMMAND_ACTION) :
    (UdDispatchUsermodeCommandsLoop req n i acts = (false, acts) ∧
      ∀ k, i ≤ k → k < i + n →
        (acts.getD k default).ActionType ≠ DEBUGGER_UD_COMMAND_ACTION_TYPE.NONE) ∨
    (∃ k, i ≤ k ∧ k < i + n ∧
      (acts.getD k default).ActionType = DEBUGGER_UD_COMMAND_ACTION_TYPE.NONE ∧
      (∀ j, i ≤ j → j < k →
        (acts.getD j default).ActionType ≠ DEBUGGER_UD_COMMAND_ACTION_TYPE.NONE) ∧
      UdDispatchUsermodeCommandsLoop req n i acts = (true, acts.set k req)) := by
  induction n generalizing i with
  | zero =>
    left
    exact ⟨rfl, by intro k h1 h2; omega⟩
  | succ n ih =>
    unfold UdDispatchUsermodeCommandsLoop
    by_cases h : (acts.getD i default).ActionType = DEBUGGER_UD_COMMAND_ACTION_TYPE.NONE
    · right
      refine ⟨i, le_refl _, by omega, h, by intro j h1 h2; omega, ?_⟩
      simp only [h, if_true]
    · simp only [h, if_false]
      rcases ih (i + 1) with ⟨he, hall⟩ | ⟨k, hk1, hk2, hk3, hk4, he⟩
      · left
        refine ⟨he, ?_⟩
        intro k h1 h2
        by_cases hki : k = i
        · subst hki; exact h
        · exact hall k (by omega) (by omega)
      · right
        refine ⟨k, by omega, by omega, hk3, ?_, he⟩
        intro j h1 h2
        by_cases hji : j = i
        · subst hji; exact h
        · exact hk4 j (by omega) h2

theorem exists_slot_iff (acts : List DEBUGGER_UD_COMMAND_ACTION)
    (q : DEBUGGER_UD_COMMAND_ACTION → Prop) :
    (∃ k, k < acts.length ∧ q (acts.getD k default)) ↔ ∃ a ∈ acts, q a := by
  constructor
  · rintro ⟨k, hk, hq⟩
    refine ⟨acts[k], List.getElem_mem hk, ?_⟩
    simpa [List.getD_eq_getElem?_getD, List.getElem?_eq_getElem hk] using hq
  · rintro ⟨a, ha, hq⟩
    obtain ⟨k, hk, rfl⟩ := List.getElem_of_mem ha
    exact ⟨k, hk, by simpa [List.getD_eq_getElem?_getD, List.getElem?_eq_getElem hk] using hq⟩

theorem mem_of_deref {st : State} {p : Nat} {s : USERMODE_DEBUGGING_THREADS_DETAILS}
    (h : st.deref p = some s) : s ∈ st.g_ThreadDebuggingDetailsListHead := by
  unfold State.deref at h
  obtain ⟨hlt, rfl⟩ := List.getElem?_eq_some.mp h
  exact List.getElem_mem hlt

theorem UdDispatchUsermodeCommands_found (K : Constants) (st : State)
    (req : DEBUGGER_UD_COMMAND_PACKET) {p : Nat} {s : USERMODE_DEBUGGING_THREADS_DETAILS}
    (h : AttachingFindThreadDebuggingDetailsByToken st req.ThreadDebuggingDetailToken = some p)
    (hs : st.deref p = some s) :
    UdDispatchUsermodeCommands K st req =
      ((UdDispatchUsermodeCommandsLoop req.UdAction K.MAX_USER_ACTIONS_FOR_THREADS 0 s.UdAction).1,
        st.store p { s with UdAction := (UdDispatchUsermodeCommandsLoop req.UdAction
          K.MAX_USER_ACTIONS_FOR_THREADS 0 s.UdAction).2 }) := by
  simp [UdDispatchUsermodeCommands, h, hs]

/-- C3: `UdDispatchUsermodeCommands` returns TRUE exactly when the token of
the packet names a session and one of the slots of that session has kind
`NONE`; when it returns FALSE the whole state is unchanged. -/
theorem C3_enqueue_result (K : Constants) (st : State) (req : DEBUGGER_UD_COMMAND_PACKET)
    (hwf : WellFormed K st) :
    ((UdDispatchUsermodeCommands K st req).1 = true ↔
      ∃ p s, AttachingFindThreadDebuggingDetailsByToken st req.ThreadDebuggingDetailToken = some p ∧
        st.deref p = some s ∧
        ∃ a ∈ s.UdAction, a.ActionType = DEBUGGER_UD_COMMAND_ACTION_TYPE.NONE) ∧
    ((UdDispatchUsermodeCommands K st req).1 = false →
      (UdDispatchUsermodeCommands K st req).2 = st) := by
  cases h : AttachingFindThreadDebuggingDetailsByToken st req.ThreadDebuggingDetailToken with
  | none => simp [UdDispatchUsermodeCommands, h]
  | some p =>
    obtain ⟨s, hs, _⟩ := deref_of_findByToken h
    have hlen := hwf s (mem_of_deref hs)
    rw [UdDispatchUsermodeCommands_found K st req h hs]
    rcases dispatchLoop_cases req.UdAction K.MAX_USER_ACTIONS_FOR_THREADS 0 s.UdAction with
      ⟨he, hall⟩ | ⟨k, _, hk2, hk3, _, he⟩
    · rw [he]
      constructor
      · simp only [Bool.false_eq_true, false_iff]
        rintro ⟨p2, s2, hp2, hs2, hex⟩
        cases hp2
        rw [hs] at hs2
        cases hs2
        obtain ⟨k, hk, hq⟩ := (exists_slot_iff s.UdAction
          (fun a => a.ActionType = DEBUGGER_UD_COMMAND_ACTION_TYPE.NONE)).mpr hex
        exact hall k (Nat.zero_le _) (by omega) hq
      · intro _
        exact store_deref_self hs
    · rw [he]
      constructor
      · simp only [true_iff]
        refine ⟨p, s, rfl, hs, ?_⟩
        exact (exists_slot_iff s.UdAction
          (fun a => a.ActionType = DEBUGGER_UD_COMMAND_ACTION_TYPE.NONE)).mp
          ⟨k, by omega, hk3⟩
      · intro hf
        simp at hf

/-! ## The mailbox: poll -/

/-- C5: when the current (process id, thread id) has no session, or its session
is not paused, `UdCheckForCommand` returns FALSE and the whole state (slots,
live registers, `IsPaused`, traces) is unchanged. -/
theorem C5_poll_not_handled (K : Constants) (st : State)
    (h : AttachingFindThreadDebuggingDetailsByProcessIdAndThreadId st
          st.CurrentProcessId st.CurrentThreadId = none ∨
        ∃ p s, AttachingFindThreadDebuggingDetailsByProcessIdAndThreadId st
          st.CurrentProcessId st.CurrentThreadId = some p ∧
          st.deref p = some s ∧ s.IsPaused = false) :
    UdCheckForCommand K st = (false, st) := by
  rcases h with h | ⟨p, s, h, hs, hp⟩
  · simp [UdCheckForCommand, h]
  · simp [UdCheckForCommand, h, hs, hp]

theorem store_store (st : State) (p : Nat) (s t : USERMODE_DEBUGGING_THREADS_DETAILS) :
    (st.store p s).store p t = st.store p t := by
  simp [State.store]

theorem UdPerformCommand_continue {st : State} {p : Nat}
    {s : USERMODE_DEBUGGING_THREADS_DETAILS} (hs : st.deref p = some s) (a b c d : Nat) :
    UdPerformCommand st p DEBUGGER_UD_COMMAND_ACTION_TYPE.CONTINUE a b c d =
      (true, ({ st with
          PerformedCommands := st.PerformedCommands ++
            [DEBUGGER_UD_COMMAND_ACTION.mk DEBUGGER_UD_COMMAND_ACTION_TYPE.CONTINUE a b c d]
          GUEST_RIP := s.GuestRip
          GUEST_RSP := s.GuestRsp
          g_GuestState := Function.update st.g_GuestState st.CurrentProcessorNumber
            { st.g_GuestState st.CurrentProcessorNumber with IncrementRip := false } }).store p
        { s with IsPaused := false }) := by
  have hs2 : ({ st with PerformedCommands := st.PerformedCommands ++
      [DEBUGGER_UD_COMMAND_ACTION.mk DEBUGGER_UD_COMMAND_ACTION_TYPE.CONTINUE a b c d] } :
      State).deref p = some s := hs
  simp only [UdPerformCommand]
  rw [UdContinueThread_found hs2]

theorem UdPerformCommand_other (st : State) (p : Nat) (t : DEBUGGER_UD_COMMAND_ACTION_TYPE)
    (ht : t ≠ DEBUGGER_UD_COMMAND_ACTION_TYPE.CONTINUE) (a b c d : Nat) :
    UdPerformCommand st p t a b c d =
      (false, { st with PerformedCommands := st.PerformedCommands ++
        [DEBUGGER_UD_COMMAND_ACTION.mk t a b c d] }) := by
  cases t with
  | CONTINUE => exact absurd rfl ht
  | NONE => rfl
  | OTHER n => rfl

/-- The state after a poll applied slot `k` of the record `s` behind `p`. -/
theorem UdCheckForCommandApply_eq {st : State} {p k : Nat}
    {s : USERMODE_DEBUGGING_THREADS_DETAILS} (hs : st.deref p = some s) :
    UdCheckForCommandApply p k s st =
      if (s.UdAction.getD k default).ActionType = DEBUGGER_UD_COMMAND_ACTION_TYPE.CONTINUE then
        ({ st with
          PerformedCommands := st.PerformedCommands ++ [s.UdAction.getD k default]
          GUEST_RIP := s.GuestRip
          GUEST_RSP := s.GuestRsp
          g_GuestState := Function.update st.g_GuestState st.CurrentProcessorNumber
            { st.g_GuestState st.CurrentProcessorNumber with IncrementRip := false } }).store p
          { s with IsPaused := false, UdAction := s.UdAction.set k emptySlot }
      else
        ({ st with
          PerformedCommands := st.PerformedCommands ++ [s.UdAction.getD k default] }).store p
          { s with UdAction := s.UdAction.set k emptySlot } := by
  unfold UdCheckForCommandApply
  by_cases hc : (s.UdAction.getD k default).ActionType = DEBUGGER_UD_COMMAND_ACTION_TYPE.CONTINUE
  · simp only [hc, if_true]
    rw [UdPerformCommand_continue hs]
    simp only
    rw [deref_store_same (by exact hs)]
    simp only [store_store]
    have he : DEBUGGER_UD_COMMAND_ACTION.mk DEBUGGER_UD_COMMAND_ACTION_TYPE.CONTINUE
        (s.UdAction.getD k default).OptionalParam1 (s.UdAction.getD k default).OptionalParam2
        (s.UdAction.getD k default).OptionalParam3 (s.UdAction.getD k default).OptionalParam4 =
        s.UdAction.getD k default := by
      rw [← hc]
    rw [he]
    rfl
  · simp only [hc, if_false]
    rw [UdPerformCommand_other _ _ _ hc]
    simp only
    have hs2 : ({ st with PerformedCommands := st.PerformedCommands ++
        [DEBUGGER_UD_COMMAND_ACTION.mk (s.UdAction.getD k default).ActionType
          (s.UdAction.getD k default).OptionalParam1
          (s.UdAction.getD k default).OptionalParam2 (s.UdAction.getD k default).OptionalParam3
          (s.UdAction.getD k default).OptionalParam4] } : State).deref p = some s := hs
    rw [hs2]
    rfl

theorem checkLoop_cases (p n i : Nat) (st : State) (s : USERMODE_DEBUGGING_THREADS_DETAILS)
    (hs : st.deref p = some s) :
    (UdCheckForCommandLoop p n i st = st ∧
      ∀ k, i ≤ k → k < i + n →
        (s.UdAction.getD k default).ActionType = DEBUGGER_UD_COMMAND_ACTION_TYPE.NONE) ∨
    (∃ k, i ≤ k ∧ k < i + n ∧
      (s.UdAction.getD k default).ActionType ≠ DEBUGGER_UD_COMMAND_ACTION_TYPE.NONE ∧
      (∀ j, i ≤ j → j < k →
        (s.UdAction.getD j default).ActionType = DEBUGGER_UD_COMMAND_ACTION_TYPE.NONE) ∧
      UdCheckForCommandLoop p n i st = UdCheckForCommandApply p k s st) := by
  induction n generalizing i with
  | zero =>
    left
    exact ⟨rfl, by intro k h1 h2; omega⟩
  | succ n ih =>
    unfold UdCheckForCommandLoop
    simp only [hs]
    by_cases h : (s.UdAction.getD i default).ActionType = DEBUGGER_UD_COMMAND_ACTION_TYPE.NONE
    · simp only [h, ne_eq, not_true_eq_false, if_false]
      rcases ih (i + 1) with ⟨he, hall⟩ | ⟨k, hk1, hk2, hk3, hk4, he⟩
      · left
        refine ⟨he, ?_⟩
        intro k h1 h2
        by_cases hki : k = i
        · subst hki; exact h
        · exact hall k (by omega) (by omega)
      · right
        refine ⟨k, by omega, by omega, hk3, ?_, he⟩
        intro j h1 h2
        by_cases hji : j = i
        · subst hji; exact h
        · exact hk4 j (by omega) h2
    · right
      refine ⟨i, le_refl _, by omega, h, by intro j h1 h2; omega, ?_⟩
      simp only [ne_eq, h, not_false_eq_true, if_true]

theorem getD_of_getElem? {acts : List DEBUGGER_UD_COMMAND_ACTION} {k : Nat}
    {a : DEBUGGER_UD_COMMAND_ACTION} (h : acts[k]? = some a) : acts.getD k default = a := by
  simp [List.getD_eq_getElem?_getD, h]

theorem getElem?_of_lt {acts : List DEBUGGER_UD_COMMAND_ACTION} {k : Nat}
    (h : k < acts.length) : acts[k]? = some (acts.getD k default) := by
  simp [List.getD_eq_getElem?_getD, List.getElem?_eq_getElem h]

theorem occupied_set_empty {acts : List DEBUGGER_UD_COMMAND_ACTION} {k : Nat}
    {a : DEBUGGER_UD_COMMAND_ACTION} (h : acts[k]? = some a)
    (ha : a.ActionType ≠ DEBUGGER_UD_COMMAND_ACTION_TYPE.NONE) :
    occupied (acts.set k emptySlot) + 1 = occupied acts := by
  induction acts generalizing k with
  | nil => simp at h
  | cons b rest ih =>
    cases k with
    | zero =>
      simp at h
      subst h
      simp [occupied, emptySlot, List.filter_cons, ha]
    | succ k =>
      simp at h
      have := ih h
      simp only [occupied, List.set_cons_succ, List.filter_cons] at this ⊢
      split_ifs <;> simp at this ⊢ <;> omega

theorem UdCheckForCommand_paused {K : Constants} {st : State} {p : Nat}
    {s : USERMODE_DEBUGGING_THREADS_DETAILS}
    (h : AttachingFindThreadDebuggingDetailsByProcessIdAndThreadId st
      st.CurrentProcessId st.CurrentThreadId = some p)
    (hs : st.deref p = some s) (hp : s.IsPaused = true) :
    UdCheckForCommand K st =
      (true, UdCheckForCommandLoop p K.MAX_USER_ACTIONS_FOR_THREADS 0 st) := by
  simp [UdCheckForCommand, h, hs, hp]

/-- C6: a poll by a tracked and paused thread returns TRUE; with an empty
mailbox the state is unchanged; otherwise exactly the lowest occupied slot is
handed to `UdPerformCommand` and cleared (kind `NONE`, parameters 0), every
other slot is unchanged, and the number of occupied slots drops by one. -/
theorem C6_one_action_per_poll (K : Constants) (st : State) (p : Nat)
    (s : USERMODE_DEBUGGING_THREADS_DETAILS) (hwf : WellFormed K st)
    (h : AttachingFindThreadDebuggingDetailsByProcessIdAndThreadId st
      st.CurrentProcessId st.CurrentThreadId = some p)
    (hs : st.deref p = some s) (hp : s.IsPaused = true) :
    (UdCheckForCommand K st).1 = true ∧
    ((∀ a ∈ s.UdAction, a.ActionType = DEBUGGER_UD_COMMAND_ACTION_TYPE.NONE) →
      (UdCheckForCommand K st).2 = st) ∧
    (∀ k a, s.UdAction[k]? = some a → a.ActionType ≠ DEBUGGER_UD_COMMAND_ACTION_TYPE.NONE →
      (∀ b ∈ s.UdAction.take k, b.ActionType = DEBUGGER_UD_COMMAND_ACTION_TYPE.NONE) →
      (UdCheckForCommand K st).2.PerformedCommands = st.PerformedCommands ++ [a] ∧
      ∃ t, (UdCheckForCommand K st).2.deref p = some t ∧
        t.UdAction = s.UdAction.set k emptySlot ∧
        t.UdAction[k]? = some emptySlot ∧
        (∀ j, j ≠ k → t.UdAction[j]? = s.UdAction[j]?) ∧
        occupied t.UdAction + 1 = occupied s.UdAction) := by
  have hlen := hwf s (mem_of_deref hs)
  rw [UdCheckForCommand_paused h hs hp]
  refine ⟨rfl, ?_⟩
  rcases checkLoop_cases p K.MAX_USER_ACTIONS_FOR_THREADS 0 st s hs with
    ⟨he, hall⟩ | ⟨k0, _, hk2, hk3, hk4, he⟩
  · refine ⟨fun _ => he, ?_⟩
    intro k a hk ha _
    have hlt := (List.getElem?_eq_some.mp hk).1
    exact absurd (getD_of_getElem? hk ▸ hall k (Nat.zero_le _) (by omega)) ha
  · have hk0 : k0 < s.UdAction.length := by omega
    constructor
    · intro hnone
      exact absurd (hnone _ (List.getElem?_mem (getElem?_of_lt hk0))) hk3
    · intro k a hk ha hmin
      have hlt := (List.getElem?_eq_some.mp hk).1
      have hkk : k = k0 := by
        rcases Nat.lt_trichotomy k k0 with hlt2 | heq | hgt
        · exact absurd (getD_of_getElem? hk ▸ hk4 k (Nat.zero_le _) hlt2) ha
        · exact heq
        · exact absurd (hmin _ (List.getElem?_mem
            ((List.getElem?_take_of_lt hgt).trans (getElem?_of_lt hk0)))) hk3
      subst hkk
      simp only [he]
      rw [UdCheckForCommandApply_eq hs, getD_of_getElem? hk]
      have hocc := occupied_set_empty hk ha
      have hself : (s.UdAction.set k emptySlot)[k]? = some emptySlot := by
        simp [List.getElem?_set_self, hlt]
      have hother : ∀ j, j ≠ k → (s.UdAction.set k emptySlot)[j]? = s.UdAction[j]? := by
        intro j hj
        exact List.getElem?_set_ne (Ne.symm hj)
      split_ifs with hc
      · refine ⟨rfl, _, deref_store_same (by exact hs), rfl, hself, hother, hocc⟩
      · refine ⟨rfl, _, deref_store_same (by exact hs), rfl, hself, hother, hocc⟩

/-! ## Scenarios: enqueues -/

theorem findByToken_of_set (st : State) (t : USERMODE_DEBUGGING_THREADS_DETAILS)
    {st2 : State} {p T : Nat} {s : USERMODE_DEBUGGING_THREADS_DETAILS}
    (hl : st2.g_ThreadDebuggingDetailsListHead = st.g_ThreadDebuggingDetailsListHead.set p t)
    (hs : st.deref p = some s) (ht : t.Token = s.Token) :
    AttachingFindThreadDebuggingDetailsByToken st2 T =
      AttachingFindThreadDebuggingDetailsByToken st T := by
  unfold AttachingFindThreadDebuggingDetailsByToken
  rw [hl]
  exact findFirst_set hs (by simp [ht])

theorem findByIds_of_set (st : State) (t : USERMODE_DEBUGGING_THREADS_DETAILS)
    {st2 : State} {p pid tid : Nat} {s : USERMODE_DEBUGGING_THREADS_DETAILS}
    (hl : st2.g_ThreadDebuggingDetailsListHead = st.g_ThreadDebuggingDetailsListHead.set p t)
    (hs : st.deref p = some s) (h1 : t.ProcessId = s.ProcessId) (h2 : t.ThreadId = s.ThreadId) :
    AttachingFindThreadDebuggingDetailsByProcessIdAndThreadId st2 pid tid =
      AttachingFindThreadDebuggingDetailsByProcessIdAndThreadId st pid tid := by
  unfold AttachingFindThreadDebuggingDetailsByProcessIdAndThreadId
  rw [hl]
  exact findFirst_set hs (by simp [h1, h2])

theorem deref_of_set (st : State) {st2 : State} {p : Nat}
    {s t : USERMODE_DEBUGGING_THREADS_DETAILS}
    (hl : st2.g_ThreadDebuggingDetailsListHead = st.g_ThreadDebuggingDetailsListHead.set p t)
    (hs : st.deref p = some s) : st2.deref p = some t := by
  unfold State.deref at hs ⊢
  have hlt := (List.getElem?_eq_some.mp hs).1
  rw [hl]
  simp [List.getElem?_set_self, hlt]

theorem dispatchLoop_shift (req a : DEBUGGER_UD_COMMAND_ACTION) (n i : Nat)
    (acts : List DEBUGGER_UD_COMMAND_ACTION) :
    UdDispatchUsermodeCommandsLoop req n (i + 1) (a :: acts) =
      ((UdDispatchUsermodeCommandsLoop req n i acts).1,
        a :: (UdDispatchUsermodeCommandsLoop req n i acts).2) := by
  induction n generalizing i with
  | zero => rfl
  | succ n ih =>
    simp only [UdDispatchUsermodeCommandsLoop, List.getD_cons_succ, List.set_cons_succ]
    split_ifs with h
    · rfl
    · exact ih (i + 1)

theorem dispatchLoop_prefix (req f : DEBUGGER_UD_COMMAND_ACTION)
    (pre free : List DEBUGGER_UD_COMMAND_ACTION) (extra : Nat)
    (hpre : ∀ a ∈ pre, a.ActionType ≠ DEBUGGER_UD_COMMAND_ACTION_TYPE.NONE)
    (hf : f.ActionType = DEBUGGER_UD_COMMAND_ACTION_TYPE.NONE) :
    UdDispatchUsermodeCommandsLoop req (pre.length + 1 + extra) 0 (pre ++ f :: free) =
      (true, pre ++ req :: free) := by
  induction pre with
  | nil =>
    have : ([] : List DEBUGGER_UD_COMMAND_ACTION).length + 1 + extra = extra + 1 := by
      simp; omega
    rw [this]
    unfold UdDispatchUsermodeCommandsLoop
    simp [hf]
  | cons a pre ih =>
    have hn : (a :: pre).length + 1 + extra = (pre.length + 1 + extra) + 1 := by
      simp; omega
    rw [hn]
    unfold UdDispatchUsermodeCommandsLoop
    have ha : a.ActionType ≠ DEBUGGER_UD_COMMAND_ACTION_TYPE.NONE := hpre a (by simp)
    simp only [List.cons_append, List.getD_cons_zero, ha, if_false, Nat.zero_add]
    rw [dispatchLoop_shift, ih (fun b hb => hpre b (by simp [hb]))]

theorem dispatchLoop_full (req : DEBUGGER_UD_COMMAND_ACTION) (n : Nat)
    (acts : List DEBUGGER_UD_COMMAND_ACTION) (hn : n ≤ acts.length)
    (hall : ∀ a ∈ acts, a.ActionType ≠ DEBUGGER_UD_COMMAND_ACTION_TYPE.NONE) :
    UdDispatchUsermodeCommandsLoop req n 0 acts = (false, acts) := by
  rcases dispatchLoop_cases req n 0 acts with ⟨he, _⟩ | ⟨k, _, hk2, hk3, _, _⟩
  · exact he
  · exact absurd hk3 (hall _ (List.getElem?_mem (getElem?_of_lt (by omega))))

theorem enqueue_step {K : Constants} {st : State} {T p : Nat}
    {pre free : List DEBUGGER_UD_COMMAND_ACTION} {f : DEBUGGER_UD_COMMAND_ACTION}
    (a : DEBUGGER_UD_COMMAND_ACTION)
    (hinv : SessionAt st T p (pre ++ f :: free))
    (hlen : pre.length + 1 + free.length = K.MAX_USER_ACTIONS_FOR_THREADS)
    (hpre : ∀ b ∈ pre, b.ActionType ≠ DEBUGGER_UD_COMMAND_ACTION_TYPE.NONE)
    (hf : f.ActionType = DEBUGGER_UD_COMMAND_ACTION_TYPE.NONE) :
    (stepOp K T st (MailboxOp.enqueue a)).1 = some true ∧
    SessionAt (stepOp K T st (MailboxOp.enqueue a)).2 T p (pre ++ a :: free) ∧
    ∀ perf, PolledAt st p perf → PolledAt (stepOp K T st (MailboxOp.enqueue a)).2 p perf := by
  obtain ⟨hfind, s, hs, hacts⟩ := hinv
  have hd := UdDispatchUsermodeCommands_found K st ⟨T, a⟩ hfind hs
  simp only [hacts, ← hlen, dispatchLoop_prefix a f pre free free.length hpre hf] at hd
  have hst : (stepOp K T st (MailboxOp.enqueue a)) =
      (some true, st.store p { s with UdAction := pre ++ a :: free }) := by
    simp only [stepOp, hd]
  rw [hst]
  refine ⟨rfl, ⟨?_, _, deref_store_same hs, rfl⟩, ?_⟩
  · rw [← hfind]
    exact findByToken_of_set st { s with UdAction := pre ++ a :: free } rfl hs rfl
  · rintro perf ⟨h1, h2⟩
    refine ⟨?_, h2⟩
    rw [← h1]
    exact findByIds_of_set st { s with UdAction := pre ++ a :: free } rfl hs rfl rfl

theorem enqueue_full {K : Constants} {st : State} {T p : Nat}
    {acts : List DEBUGGER_UD_COMMAND_ACTION} (a : DEBUGGER_UD_COMMAND_ACTION)
    (hinv : SessionAt st T p acts)
    (hlen : acts.length = K.MAX_USER_ACTIONS_FOR_THREADS)
    (hall : ∀ b ∈ acts, b.ActionType ≠ DEBUGGER_UD_COMMAND_ACTION_TYPE.NONE) :
    stepOp K T st (MailboxOp.enqueue a) = (some false, st) := by
  obtain ⟨hfind, s, hs, hacts⟩ := hinv
  have hd := UdDispatchUsermodeCommands_found K st ⟨T, a⟩ hfind hs
  subst hacts
  simp only [← hlen, dispatchLoop_full a _ s.UdAction (le_refl _) hall] at hd
  simp only [stepOp, hd]
  rw [store_deref_self hs]

theorem runOps_enqueues (K : Constants) (T p : Nat) (as : List DEBUGGER_UD_COMMAND_ACTION)
    (has : ∀ a ∈ as, a.ActionType ≠ DEBUGGER_UD_COMMAND_ACTION_TYPE.NONE) :
    ∀ (st : State) (pre free : List DEBUGGER_UD_COMMAND_ACTION),
      SessionAt st T p (pre ++ free) →
      pre.length + free.length = K.MAX_USER_ACTIONS_FOR_THREADS →
      (∀ b ∈ pre, b.ActionType ≠ DEBUGGER_UD_COMMAND_ACTION_TYPE.NONE) →
      (∀ b ∈ free, b.ActionType = DEBUGGER_UD_COMMAND_ACTION_TYPE.NONE) →
      (runOps K T st (as.map MailboxOp.enqueue)).1 =
        List.replicate (min as.length free.length) true ++
          List.replicate (as.length - free.length) false ∧
      SessionAt (runOps K T st (as.map MailboxOp.enqueue)).2 T p
        (pre ++ as.take free.length ++ free.drop as.length) ∧
      ∀ perf, PolledAt st p perf →
        PolledAt (runOps K T st (as.map MailboxOp.enqueue)).2 p perf := by
  induction as with
  | nil =>
    intro st pre free hinv _ _ _
    simpa [runOps] using hinv
  | cons a as ih =>
    intro st pre free hinv hlen hpre hfree
    have has2 : ∀ b ∈ as, b.ActionType ≠ DEBUGGER_UD_COMMAND_ACTION_TYPE.NONE :=
      fun b hb => has b (by simp [hb])
    cases free with
    | nil =>
      have hfull := enqueue_full (K := K) a hinv (by simpa using hlen)
        (by simpa using hpre)
      have := ih has2 st pre [] hinv hlen hpre hfree
      simp only [List.map_cons, runOps, hfull]
      simp only [List.length_nil, Nat.min_zero, List.replicate_zero, List.nil_append,
        Nat.sub_zero, List.take_zero, List.append_nil, List.drop_nil, List.length_cons] at this ⊢
      refine ⟨?_, this.2.1, this.2.2⟩
      rw [this.1]
      simp [List.replicate_succ]
    | cons f free =>
      have hfn : f.ActionType = DEBUGGER_UD_COMMAND_ACTION_TYPE.NONE := hfree f (by simp)
      obtain ⟨h1, h2, h3⟩ := enqueue_step (K := K) a hinv
        (by simp at hlen; omega) hpre hfn
      have hinv2 : SessionAt (stepOp K T st (MailboxOp.enqueue a)).2 T p
          ((pre ++ [a]) ++ free) := by
        simpa using h2
      have hpre2 : ∀ b ∈ pre ++ [a], b.ActionType ≠ DEBUGGER_UD_COMMAND_ACTION_TYPE.NONE := by
        intro b hb
        rcases List.mem_append.mp hb with hb | hb
        · exact hpre b hb
        · simp at hb; subst hb; exact has b (by simp)
      have := ih has2 _ (pre ++ [a]) free hinv2 (by simp at hlen ⊢; omega) hpre2
        (fun b hb => hfree b (by simp [hb]))
      simp only [List.map_cons, runOps, h1]
      refine ⟨?_, ?_, fun perf hp => this.2.2 perf (h3 perf hp)⟩
      · rw [this.1]
        simp [List.replicate_succ, Nat.succ_min_succ]
      · simpa using this.2.1

/-! ## Scenarios: polls -/

theorem SessionAt_of_set (st : State) {st2 : State} {T p : Nat}
    {s t : USERMODE_DEBUGGING_THREADS_DETAILS} {acts : List DEBUGGER_UD_COMMAND_ACTION}
    (hl : st2.g_ThreadDebuggingDetailsListHead = st.g_ThreadDebuggingDetailsListHead.set p t)
    (hs : st.deref p = some s) (ht : t.Token = s.Token) (hacts : t.UdAction = acts)
    (hfind : AttachingFindThreadDebuggingDetailsByToken st T = some p) :
    SessionAt st2 T p acts :=
  ⟨by rw [findByToken_of_set st t hl hs ht]; exact hfind, t, deref_of_set st hl hs, hacts⟩

theorem PolledAt_of_set (st : State) {st2 : State} {p : Nat}
    {s t : USERMODE_DEBUGGING_THREADS_DETAILS} {perf : List DEBUGGER_UD_COMMAND_ACTION}
    (hl : st2.g_ThreadDebuggingDetailsListHead = st.g_ThreadDebuggingDetailsListHead.set p t)
    (hs : st.deref p = some s) (h1 : t.ProcessId = s.ProcessId) (h2 : t.ThreadId = s.ThreadId)
    (hc1 : st2.CurrentProcessId = st.CurrentProcessId)
    (hc2 : st2.CurrentThreadId = st.CurrentThreadId)
    (hfind : AttachingFindThreadDebuggingDetailsByProcessIdAndThreadId st
      st.CurrentProcessId st.CurrentThreadId = some p)
    (hperf : st2.PerformedCommands = perf) :
    PolledAt st2 p perf :=
  ⟨by rw [hc1, hc2, findByIds_of_set st t hl hs h1 h2]; exact hfind, hperf⟩

theorem pause_step {st : State} {T p : Nat} {acts : List DEBUGGER_UD_COMMAND_ACTION}
    (hinv : SessionAt st T p acts) :
    SessionAt (UdSpinThreadOnNop st T).2 T p acts ∧
    (∀ perf, PolledAt st p perf → PolledAt (UdSpinThreadOnNop st T).2 p perf) ∧
    ∃ s, (UdSpinThreadOnNop st T).2.deref p = some s ∧ s.IsPaused = true ∧
      s.UdAction = acts ∧ s.GuestRip = st.GUEST_RIP ∧ s.GuestRsp = st.GUEST_RSP ∧
      (UdSpinThreadOnNop st T).2.GUEST_RIP = s.UsermodeReservedBuffer ∧
      (UdSpinThreadOnNop st T).2.GUEST_RSP = st.GUEST_RSP := by
  obtain ⟨hfind, s, hs, hacts⟩ := hinv
  rw [UdSpinThreadOnNop_found hfind hs]
  subst hacts
  refine ⟨SessionAt_of_set st rfl hs rfl rfl hfind, ?_, _, deref_of_set st rfl hs,
    rfl, rfl, rfl, rfl, rfl, rfl⟩
  rintro perf ⟨h1, h2⟩
  exact PolledAt_of_set st rfl hs rfl rfl rfl rfl h1 h2

theorem getD_front_length (front rest : List DEBUGGER_UD_COMMAND_ACTION)
    (a : DEBUGGER_UD_COMMAND_ACTION) : (front ++ a :: rest).getD front.length default = a := by
  induction front with
  | nil => simp
  | cons b front ih => simpa using ih

theorem getD_front_lt (front rest : List DEBUGGER_UD_COMMAND_ACTION) {i : Nat}
    (h : i < front.length) : (front ++ rest).getD i default ∈ front := by
  have : (front ++ rest)[i]? = some front[i] := by
    rw [List.getElem?_append_left h, List.getElem?_eq_getElem h]
  rw [getD_of_getElem? this]
  exact List.getElem_mem h

theorem poll_eq {K : Constants} {st : State} {p : Nat}
    {front rest : List DEBUGGER_UD_COMMAND_ACTION} {a : DEBUGGER_UD_COMMAND_ACTION}
    {s : USERMODE_DEBUGGING_THREADS_DETAILS}
    (hids : AttachingFindThreadDebuggingDetailsByProcessIdAndThreadId st
      st.CurrentProcessId st.CurrentThreadId = some p)
    (hs : st.deref p = some s) (hp : s.IsPaused = true)
    (hacts : s.UdAction = front ++ a :: rest)
    (hlen : front.length + 1 + rest.length = K.MAX_USER_ACTIONS_FOR_THREADS)
    (hfront : ∀ b ∈ front, b.ActionType = DEBUGGER_UD_COMMAND_ACTION_TYPE.NONE)
    (ha : a.ActionType ≠ DEBUGGER_UD_COMMAND_ACTION_TYPE.NONE) :
    UdCheckForCommand K st =
      (true,
        if a.ActionType = DEBUGGER_UD_COMMAND_ACTION_TYPE.CONTINUE then
          ({ st with
            PerformedCommands := st.PerformedCommands ++ [a]
            GUEST_RIP := s.GuestRip
            GUEST_RSP := s.GuestRsp
            g_GuestState := Function.update st.g_GuestState st.CurrentProcessorNumber
              { st.g_GuestState st.CurrentProcessorNumber with IncrementRip := false } }).store p
            { s with IsPaused := false, UdAction := front ++ emptySlot :: rest }
        else
          ({ st with PerformedCommands := st.PerformedCommands ++ [a] }).store p
            { s with UdAction := front ++ emptySlot :: rest }) := by
  rw [UdCheckForCommand_paused hids hs hp]
  have hk : UdCheckForCommandLoop p K.MAX_USER_ACTIONS_FOR_THREADS 0 st =
      UdCheckForCommandApply p front.length s st := by
    rcases checkLoop_cases p K.MAX_USER_ACTIONS_FOR_THREADS 0 st s hs with
      ⟨_, hall⟩ | ⟨k, _, _, hk3, hk4, he⟩
    · have := hall front.length (Nat.zero_le _) (by omega)
      rw [hacts, getD_front_length] at this
      exact absurd this ha
    · have hkk : k = front.length := by
        rcases Nat.lt_trichotomy k front.length with hlt | heq | hgt
        · rw [hacts] at hk3
          exact absurd (hfront _ (getD_front_lt front (a :: rest) hlt)) hk3
        · exact heq
        · have := hk4 front.length (Nat.zero_le _) hgt
          rw [hacts, getD_front_length] at this
          exact absurd this ha
      rw [he, hkk]
  have hget : s.UdAction.getD front.length default = a := by
    rw [hacts, getD_front_length]
  have hset : s.UdAction.set front.length emptySlot = front ++ emptySlot :: rest := by
    rw [hacts]; simp [List.set_append]
  rw [hk, UdCheckForCommandApply_eq hs, hget, hset]

theorem poll_step {K : Constants} {st : State} {T p : Nat}
    {front rest perf : List DEBUGGER_UD_COMMAND_ACTION} {a : DEBUGGER_UD_COMMAND_ACTION}
    {s : USERMODE_DEBUGGING_THREADS_DETAILS}
    (hfind : AttachingFindThreadDebuggingDetailsByToken st T = some p)
    (hs : st.deref p = some s) (hp : s.IsPaused = true)
    (hacts : s.UdAction = front ++ a :: rest) (hpoll : PolledAt st p perf)
    (hlen : front.length + 1 + rest.length = K.MAX_USER_ACTIONS_FOR_THREADS)
    (hfront : ∀ b ∈ front, b.ActionType = DEBUGGER_UD_COMMAND_ACTION_TYPE.NONE)
    (ha : a.ActionType ≠ DEBUGGER_UD_COMMAND_ACTION_TYPE.NONE) :
    (UdCheckForCommand K st).1 = true ∧
    SessionAt (UdCheckForCommand K st).2 T p (front ++ emptySlot :: rest) ∧
    PolledAt (UdCheckForCommand K st).2 p (perf ++ [a]) := by
  obtain ⟨hids, hperf⟩ := hpoll
  rw [poll_eq hids hs hp hacts hlen hfront ha]
  refine ⟨rfl, ?_⟩
  simp only
  split_ifs with hc
  · exact ⟨SessionAt_of_set st rfl hs rfl rfl hfind,
      PolledAt_of_set st rfl hs rfl rfl rfl rfl hids (by rw [← hperf]; rfl)⟩
  · exact ⟨SessionAt_of_set st rfl hs rfl rfl hfind,
      PolledAt_of_set st rfl hs rfl rfl rfl rfl hids (by rw [← hperf]; rfl)⟩

theorem runOps_append (K : Constants) (T : Nat) (ops1 ops2 : List MailboxOp) :
    ∀ st : State, runOps K T st (ops1 ++ ops2) =
      ((runOps K T st ops1).1 ++ (runOps K T (runOps K T st ops1).2 ops2).1,
        (runOps K T (runOps K T st ops1).2 ops2).2) := by
  induction ops1 with
  | nil => intro st; simp [runOps]
  | cons op ops ih => intro st; simp [runOps, ih]

theorem runOps_pause_poll (K : Constants) (T : Nat) (st : State) (ops : List MailboxOp) :
    runOps K T st (MailboxOp.pause :: MailboxOp.poll :: ops) =
      ((UdCheckForCommand K (UdSpinThreadOnNop st T).2).1 ::
          (runOps K T (UdCheckForCommand K (UdSpinThreadOnNop st T).2).2 ops).1,
        (runOps K T (UdCheckForCommand K (UdSpinThreadOnNop st T).2).2 ops).2) := by
  simp [runOps, stepOp]

/-- C4: for a session with an empty mailbox and capacity+1 enqueued requests
with no poll in between, of which the first capacity are actions (kind other
than `NONE`, the empty sentinel), the first capacity calls of
`UdDispatchUsermodeCommands` return TRUE and the (capacity+1)-th returns
FALSE, whatever its kind. -/
theorem C4_mailbox_full (K : Constants) (st : State) (T p : Nat)
    (s : USERMODE_DEBUGGING_THREADS_DETAILS) (as : List DEBUGGER_UD_COMMAND_ACTION)
    (hwf : WellFormed K st)
    (hfind : AttachingFindThreadDebuggingDetailsByToken st T = some p)
    (hs : st.deref p = some s)
    (hempty : ∀ a ∈ s.UdAction, a.ActionType = DEBUGGER_UD_COMMAND_ACTION_TYPE.NONE)
    (hlen : as.length = K.MAX_USER_ACTIONS_FOR_THREADS + 1)
    (hkinds : ∀ a ∈ as.take K.MAX_USER_ACTIONS_FOR_THREADS,
      a.ActionType ≠ DEBUGGER_UD_COMMAND_ACTION_TYPE.NONE) :
    (runOps K T st (as.map MailboxOp.enqueue)).1 =
      List.replicate K.MAX_USER_ACTIONS_FOR_THREADS true ++ [false] := by
  have hl := hwf s (mem_of_deref hs)
  have htl : (as.take K.MAX_USER_ACTIONS_FOR_THREADS).length =
      K.MAX_USER_ACTIONS_FOR_THREADS := by
    rw [List.length_take]; omega
  obtain ⟨e1, e2, _⟩ := runOps_enqueues K T p (as.take K.MAX_USER_ACTIONS_FOR_THREADS) hkinds
    st [] s.UdAction ⟨hfind, s, hs, by simp⟩ (by simpa using hl) (by simp) hempty
  have hfull : SessionAt (runOps K T st
      ((as.take K.MAX_USER_ACTIONS_FOR_THREADS).map MailboxOp.enqueue)).2 T p
      (as.take K.MAX_USER_ACTIONS_FOR_THREADS) := by
    have h1 : (as.take K.MAX_USER_ACTIONS_FOR_THREADS).take s.UdAction.length =
        as.take K.MAX_USER_ACTIONS_FOR_THREADS := List.take_of_length_le (by omega)
    have h2 : s.UdAction.drop (as.take K.MAX_USER_ACTIONS_FOR_THREADS).length = [] :=
      List.drop_of_length_le (by omega)
    rw [h1, h2] at e2
    simpa using e2
  obtain ⟨last, hlast⟩ : ∃ last, as.drop K.MAX_USER_ACTIONS_FOR_THREADS = [last] := by
    have hd : (as.drop K.MAX_USER_ACTIONS_FOR_THREADS).length = 1 := by
      rw [List.length_drop]; omega
    match hm : as.drop K.MAX_USER_ACTIONS_FOR_THREADS, hd with
    | [x], _ => exact ⟨x, rfl⟩
  have hsplit : as.map MailboxOp.enqueue =
      (as.take K.MAX_USER_ACTIONS_FOR_THREADS).map MailboxOp.enqueue ++
        [MailboxOp.enqueue last] := by
    conv_lhs => rw [← List.take_append_drop K.MAX_USER_ACTIONS_FOR_THREADS as, hlast]
    simp
  rw [hsplit, runOps_append]
  have hstep := enqueue_full (K := K) last hfull htl hkinds
  simp only [runOps, hstep, e1, htl, hl]
  simp

/-- C7 (as stated, refuted): with three slots, the interleaving
enqueue c1, enqueue c2, poll, enqueue c3, poll, poll (the session paused before
each poll) has every enqueue and every poll succeed, yet the commands are
performed in the order c1, c3, c2: the third request takes the slot freed by
the first poll and overtakes the second. -/
theorem C7_counterexample_interleaving :
    (runOps K3 7 demoState
      [MailboxOp.pause, MailboxOp.enqueue (continueAction 1),
        MailboxOp.enqueue (continueAction 2), MailboxOp.poll,
        MailboxOp.pause, MailboxOp.enqueue (continueAction 3), MailboxOp.poll,
        MailboxOp.pause, MailboxOp.poll]).1 = [true, true, true, true, true, true] ∧
    (runOps K3 7 demoState
      [MailboxOp.pause, MailboxOp.enqueue (continueAction 1),
        MailboxOp.enqueue (continueAction 2), MailboxOp.poll,
        MailboxOp.pause, MailboxOp.enqueue (continueAction 3), MailboxOp.poll,
        MailboxOp.pause, MailboxOp.poll]).2.PerformedCommands =
      [continueAction 1, continueAction 3, continueAction 2] := by
  decide

theorem poll_empty {K : Constants} {st : State} {p : Nat}
    {s : USERMODE_DEBUGGING_THREADS_DETAILS}
    (hids : AttachingFindThreadDebuggingDetailsByProcessIdAndThreadId st
      st.CurrentProcessId st.CurrentThreadId = some p)
    (hs : st.deref p = some s) (hp : s.IsPaused = true)
    (hlen : s.UdAction.length = K.MAX_USER_ACTIONS_FOR_THREADS)
    (hnone : ∀ b ∈ s.UdAction, b.ActionType = DEBUGGER_UD_COMMAND_ACTION_TYPE.NONE) :
    UdCheckForCommand K st = (true, st) := by
  rw [UdCheckForCommand_paused hids hs hp]
  rcases checkLoop_cases p K.MAX_USER_ACTIONS_FOR_THREADS 0 st s hs with
    ⟨he, _⟩ | ⟨k, _, hk2, hk3, _, _⟩
  · rw [he]
  · exact absurd (hnone _ (List.getElem?_mem (getElem?_of_lt (by omega)))) hk3

theorem runOps_pause (K : Constants) (T : Nat) (st : State) (ops : List MailboxOp) :
    runOps K T st (MailboxOp.pause :: ops) = runOps K T (UdSpinThreadOnNop st T).2 ops := by
  simp [runOps, stepOp]

theorem runOps_enqueue (K : Constants) (T : Nat) (st : State)
    (a : DEBUGGER_UD_COMMAND_ACTION) (ops : List MailboxOp)
    (h : (stepOp K T st (MailboxOp.enqueue a)).1 = some true) :
    runOps K T st (MailboxOp.enqueue a :: ops) =
      (true :: (runOps K T (stepOp K T st (MailboxOp.enqueue a)).2 ops).1,
        (runOps K T (stepOp K T st (MailboxOp.enqueue a)).2 ops).2) := by
  simp [runOps, h]

theorem fifoApplied_take (ops : List MailboxOp) :
    ∀ queue : List DEBUGGER_UD_COMMAND_ACTION,
      ∃ n, fifoApplied queue ops = (queue ++ enqueuedOf ops).take n := by
  induction ops with
  | nil => intro queue; exact ⟨0, by simp [fifoApplied]⟩
  | cons op ops ih =>
    intro queue
    cases op with
    | enqueue a =>
      obtain ⟨n, hn⟩ := ih (queue ++ [a])
      exact ⟨n, by simpa [fifoApplied, enqueuedOf] using hn⟩
    | poll =>
      cases queue with
      | nil =>
        obtain ⟨n, hn⟩ := ih []
        exact ⟨n, by simpa [fifoApplied, enqueuedOf] using hn⟩
      | cons a queue =>
        obtain ⟨n, hn⟩ := ih queue
        exact ⟨n + 1, by simp [fifoApplied, enqueuedOf, hn]⟩
    | pause =>
      obtain ⟨n, hn⟩ := ih queue
      exact ⟨n, by simpa [fifoApplied, enqueuedOf] using hn⟩

theorem runOps_disciplined (K : Constants) (T p : Nat) :
    ∀ (ops : List MailboxOp) (st : State)
      (front queue rest perf : List DEBUGGER_UD_COMMAND_ACTION) (dirty : Bool),
      SessionAt st T p (front ++ queue ++ rest) → PolledAt st p perf →
      front.length + queue.length + rest.length = K.MAX_USER_ACTIONS_FOR_THREADS →
      (∀ b ∈ front, b.ActionType = DEBUGGER_UD_COMMAND_ACTION_TYPE.NONE) →
      (∀ b ∈ queue, b.ActionType ≠ DEBUGGER_UD_COMMAND_ACTION_TYPE.NONE) →
      (∀ b ∈ rest, b.ActionType = DEBUGGER_UD_COMMAND_ACTION_TYPE.NONE) →
      (dirty = false → front = []) →
      disciplined K.MAX_USER_ACTIONS_FOR_THREADS dirty queue.length ops = true →
      (∀ b ∈ (runOps K T st (withPauses ops)).1, b = true) ∧
      PolledAt (runOps K T st (withPauses ops)).2 p (perf ++ fifoApplied queue ops) := by
  intro ops
  induction ops with
  | nil =>
    intro st front queue rest perf dirty _ hpoll _ _ _ _ _ _
    simpa [withPauses, runOps, fifoApplied] using hpoll
  | cons op ops ih =>
    intro st front queue rest perf dirty hinv hpoll hlen hfront hqueue hrest hdirty hd
    cases op with
    | enqueue a =>
      simp only [disciplined, Bool.and_eq_true, decide_eq_true_eq] at hd
      obtain ⟨ha, hd⟩ := hd
      cases queue with
      | nil =>
        simp only [List.length_nil, if_true, Bool.and_eq_true, decide_eq_true_eq] at hd
        obtain ⟨hcap, hd⟩ := hd
        cases hm : front ++ rest with
        | nil =>
          have h0 : front.length + rest.length = 0 := by
            rw [← List.length_append, hm]; rfl
          simp only [List.length_nil] at hlen
          omega
        | cons f free =>
          have hf : f.ActionType = DEBUGGER_UD_COMMAND_ACTION_TYPE.NONE := by
            have hmem : f ∈ front ++ rest := by rw [hm]; simp
            rcases List.mem_append.mp hmem with h | h
            · exact hfront f h
            · exact hrest f h
          have hinv2 : SessionAt st T p ([] ++ f :: free) := by
            simpa [hm] using hinv
          have hl2 : ([] : List DEBUGGER_UD_COMMAND_ACTION).length + 1 + free.length =
              K.MAX_USER_ACTIONS_FOR_THREADS := by
            have h0 : front.length + rest.length = free.length + 1 := by
              rw [← List.length_append, hm]; rfl
            simp only [List.length_nil] at hlen ⊢
            omega
          obtain ⟨h1, h2, h3⟩ := enqueue_step (K := K) a hinv2 hl2 (by simp) hf
          obtain ⟨i1, i2⟩ := ih (stepOp K T st (MailboxOp.enqueue a)).2 [] [a] free perf false
            (by simpa using h2) (h3 perf hpoll) (by simp at hl2 ⊢; omega) (by simp)
            (by simpa using ha) (by
              intro b hb
              have hmem : b ∈ front ++ rest := by rw [hm]; simp [hb]
              rcases List.mem_append.mp hmem with h | h
              · exact hfront b h
              · exact hrest b h)
            (fun _ => rfl) (by simpa using hd)
          rw [withPauses, runOps_enqueue K T st a _ h1]
          refine ⟨?_, ?_⟩
          · intro b hb
            rcases List.mem_cons.mp hb with h | h
            · exact h
            · exact i1 b h
          · simpa [fifoApplied] using i2
      | cons x queue =>
        simp only [List.length_cons, Nat.add_one_ne_zero, if_false, Bool.and_eq_true,
          Bool.not_eq_true', decide_eq_true_eq] at hd
        obtain ⟨hclean, hroom, hd⟩ := hd
        have hfr := hdirty hclean
        subst hfr
        cases rest with
        | nil => simp at hlen; omega
        | cons f free =>
          have hinv2 : SessionAt st T p ((x :: queue) ++ f :: free) := by
            simpa using hinv
          have hl2 : (x :: queue).length + 1 + free.length =
              K.MAX_USER_ACTIONS_FOR_THREADS := by
            simp at hlen ⊢; omega
          obtain ⟨h1, h2, h3⟩ := enqueue_step (K := K) a hinv2 hl2 hqueue
            (hrest f (by simp))
          obtain ⟨i1, i2⟩ := ih (stepOp K T st (MailboxOp.enqueue a)).2 []
            ((x :: queue) ++ [a]) free perf false
            (by simpa using h2) (h3 perf hpoll) (by simp at hl2 ⊢; omega) (by simp)
            (by
              intro b hb
              rcases List.mem_append.mp hb with h | h
              · exact hqueue b h
              · simp at h; subst h; exact ha)
            (fun b hb => hrest b (by simp [hb])) (fun _ => rfl) (by simpa using hd)
          rw [withPauses, runOps_enqueue K T st a _ h1]
          refine ⟨?_, ?_⟩
          · intro b hb
            rcases List.mem_cons.mp hb with h | h
            · exact h
            · exact i1 b h
          · simpa [fifoApplied] using i2
    | poll =>
      obtain ⟨hS, hP, s1, hs1, hp1, hacts1, _⟩ := pause_step hinv
      rw [withPauses, runOps_pause_poll]
      cases queue with
      | nil =>
        simp only [disciplined, List.length_nil, if_true] at hd
        have hpe := poll_empty (K := K) (hP perf hpoll).1 hs1 hp1
          (by rw [hacts1]; simp at hlen ⊢; omega)
          (by
            rw [hacts1]
            intro b hb
            simp at hb
            rcases hb with h | h
            · exact hfront b h
            · exact hrest b h)
        rw [hpe]
        obtain ⟨i1, i2⟩ := ih (UdSpinThreadOnNop st T).2 front [] rest perf dirty
          hS (hP perf hpoll) hlen hfront hqueue hrest hdirty hd
        refine ⟨?_, ?_⟩
        · intro b hb
          rcases List.mem_cons.mp hb with h | h
          · exact h
          · exact i1 b h
        · simpa [fifoApplied] using i2
      | cons x queue =>
        simp only [disciplined, List.length_cons, Nat.add_one_ne_zero, if_false,
          Nat.add_sub_cancel] at hd
        have hacts2 : s1.UdAction = front ++ x :: (queue ++ rest) := by simpa using hacts1
        obtain ⟨hr, hS2, hP2⟩ := poll_step (K := K) hS.1 hs1 hp1 hacts2 (hP perf hpoll)
          (by simp at hlen ⊢; omega) hfront (hqueue x (by simp))
        obtain ⟨i1, i2⟩ := ih (UdCheckForCommand K (UdSpinThreadOnNop st T).2).2
          (front ++ [emptySlot]) queue rest (perf ++ [x]) true
          (by simpa using hS2) hP2 (by simp at hlen ⊢; omega)
          (by
            intro b hb
            rcases List.mem_append.mp hb with h | h
            · exact hfront b h
            · simp at h; subst h; rfl)
          (fun b hb => hqueue b (by simp [hb])) hrest (by simp) hd
        refine ⟨?_, ?_⟩
        · intro b hb
          rcases List.mem_cons.mp hb with h | h
          · rw [h]; exact hr
          · exact i1 b h
        · simpa [fifoApplied] using i2
    | pause =>
      obtain ⟨hS, hP, _⟩ := pause_step hinv
      simp only [disciplined] at hd
      rw [withPauses, runOps_pause]
      obtain ⟨i1, i2⟩ := ih (UdSpinThreadOnNop st T).2 front queue rest perf dirty
        hS (hP perf hpoll) hlen hfront hqueue hrest hdirty hd
      exact ⟨i1, by simpa [fifoApplied] using i2⟩

/-- C7 (amended): for a tracked session that starts with an empty mailbox and
every interleaved sequence of enqueues and polls (the session paused before each
poll) in which every enqueue carries a kind other than `NONE`, finds room, and
is not made while actions are still queued behind slots freed by a poll, every
enqueue and every poll succeeds and the polls perform the actions exactly as a
first-in first-out queue hands them out: in the order in which they were
enqueued, as an initial segment of the enqueued actions. -/
theorem C7_fifo_without_overtaking (K : Constants) (st : State) (T p : Nat)
    (s : USERMODE_DEBUGGING_THREADS_DETAILS) (ops : List MailboxOp)
    (hwf : WellFormed K st)
    (hfind : AttachingFindThreadDebuggingDetailsByToken st T = some p)
    (hids : AttachingFindThreadDebuggingDetailsByProcessIdAndThreadId st
      st.CurrentProcessId st.CurrentThreadId = some p)
    (hs : st.deref p = some s)
    (hempty : ∀ a ∈ s.UdAction, a.ActionType = DEBUGGER_UD_COMMAND_ACTION_TYPE.NONE)
    (hd : disciplined K.MAX_USER_ACTIONS_FOR_THREADS false 0 ops = true) :
    (∀ b ∈ (runOps K T st (withPauses ops)).1, b = true) ∧
    (runOps K T st (withPauses ops)).2.PerformedCommands =
      st.PerformedCommands ++ fifoApplied [] ops ∧
    ∃ n, fifoApplied [] ops = (enqueuedOf ops).take n := by
  have hl := hwf s (mem_of_deref hs)
  obtain ⟨i1, i2⟩ := runOps_disciplined K T p ops st [] [] s.UdAction st.PerformedCommands
    false ⟨hfind, s, hs, by simp⟩ ⟨hids, rfl⟩ (by simpa using hl) (by simp) (by simp)
    hempty (fun _ => rfl) hd
  obtain ⟨n, hn⟩ := fifoApplied_take ops []
  exact ⟨i1, i2.2, n, by simpa using hn⟩

/-! ## The trap handler -/

theorem UdHandle_not_root (K : Constants) (C : Collaborators) (st : State)
    (core T : Nat) (regs : GUEST_REGS) (reason : Nat)
    (ev : Option DEBUGGER_TRIGGERED_EVENT_DETAILS)
    (hroot : (st.g_GuestState core).IsOnVmxRootMode = false) :
    UdHandleBreakpointAndDebugBreakpoints K C st core T regs reason ev = (some false, st) := by
  simp [UdHandleBreakpointAndDebugBreakpoints, hroot]

/-- In vmx-root mode the handler reads the instruction bytes, sends one pause
packet and ends in `UdSpinThreadOnNop`. -/
theorem UdHandle_root (K : Constants) (C : Collaborators) (st : State)
    (core T : Nat) (regs : GUEST_REGS) (reason : Nat)
    (ev : Option DEBUGGER_TRIGGERED_EVENT_DETAILS)
    (hroot : (st.g_GuestState core).IsOnVmxRootMode = true) :
    ∃ pkt : DEBUGGEE_UD_PAUSED_PACKET,
      pkt.Rip = (st.g_GuestState core).LastVmexitRip ∧
      pkt.Rflags = st.GUEST_RFLAGS ∧
      pkt.ReadInstructionLen = ExitInstructionLength K
        (st.g_GuestState core).InstructionLengthHint (st.g_GuestState core).LastVmexitRip ∧
      pkt.GuestRegs = regs ∧
      UdHandleBreakpointAndDebugBreakpoints K C st core T regs reason ev =
        UdSpinThreadOnNop
          { st with
            MemoryReadCalls := st.MemoryReadCalls ++
              [((st.g_GuestState core).LastVmexitRip,
                ExitInstructionLength K (st.g_GuestState core).InstructionLengthHint
                  (st.g_GuestState core).LastVmexitRip)]
            LogSendBufferCalls := st.LogSendBufferCalls ++ [pkt] } T := by
  refine ⟨⟨(st.g_GuestState core).LastVmexitRip, C.KdIsGuestOnUsermode32Bit, st.GUEST_RFLAGS,
    (match ev with
      | some e => e.Tag
      | none => 0),
    ExitInstructionLength K (st.g_GuestState core).InstructionLengthHint
      (st.g_GuestState core).LastVmexitRip,
    (C.MemoryMapperReadMemorySafeOnTargetProcess (st.g_GuestState core).LastVmexitRip
      (ExitInstructionLength K (st.g_GuestState core).InstructionLengthHint
        (st.g_GuestState core).LastVmexitRip)).take
      (ExitInstructionLength K (st.g_GuestState core).InstructionLengthHint
        (st.g_GuestState core).LastVmexitRip),
    regs⟩, rfl, rfl, rfl, rfl, ?_⟩
  cases ev with
  | none =>
    simp only [UdHandleBreakpointAndDebugBreakpoints, hroot, Bool.not_true, Bool.false_eq_true,
      if_false]
  | some e =>
    simp only [UdHandleBreakpointAndDebugBreakpoints, hroot, Bool.not_true, Bool.false_eq_true,
      if_false]

theorem UdSpinThreadOnNop_traces (st : State) (T : Nat) :
    (UdSpinThreadOnNop st T).2.MemoryReadCalls = st.MemoryReadCalls ∧
    (UdSpinThreadOnNop st T).2.LogSendBufferCalls = st.LogSendBufferCalls ∧
    (UdSpinThreadOnNop st T).2.PerformedCommands = st.PerformedCommands := by
  cases h : AttachingFindThreadDebuggingDetailsByToken st T with
  | none => rw [UdSpinThreadOnNop_not_found h]; exact ⟨rfl, rfl, rfl⟩
  | some p =>
    obtain ⟨s, hs, _⟩ := deref_of_findByToken h
    rw [UdSpinThreadOnNop_found h hs]
    exact ⟨rfl, rfl, rfl⟩

/-- In vmx-root mode the handler issues one safe read of the computed length at
the RIP of the exit and one pause packet recording that RIP and length. -/
theorem UdHandle_root_traces (K : Constants) (C : Collaborators) (st : State)
    (core T : Nat) (regs : GUEST_REGS) (reason : Nat)
    (ev : Option DEBUGGER_TRIGGERED_EVENT_DETAILS)
    (hroot : (st.g_GuestState core).IsOnVmxRootMode = true) :
    (UdHandleBreakpointAndDebugBreakpoints K C st core T regs reason ev).2.MemoryReadCalls =
      st.MemoryReadCalls ++ [((st.g_GuestState core).LastVmexitRip,
        ExitInstructionLength K (st.g_GuestState core).InstructionLengthHint
          (st.g_GuestState core).LastVmexitRip)] ∧
    ∃ pkt : DEBUGGEE_UD_PAUSED_PACKET,
      (UdHandleBreakpointAndDebugBreakpoints K C st core T regs reason ev).2.LogSendBufferCalls =
        st.LogSendBufferCalls ++ [pkt] ∧
      pkt.Rip = (st.g_GuestState core).LastVmexitRip ∧
      pkt.ReadInstructionLen = ExitInstructionLength K
        (st.g_GuestState core).InstructionLengthHint (st.g_GuestState core).LastVmexitRip := by
  obtain ⟨pkt, hrip, _, hlen, _, he⟩ := UdHandle_root K C st core T regs reason ev hroot
  rw [he]
  obtain ⟨t1, t2, _⟩ := UdSpinThreadOnNop_traces { st with
      MemoryReadCalls := st.MemoryReadCalls ++
        [((st.g_GuestState core).LastVmexitRip,
          ExitInstructionLength K (st.g_GuestState core).InstructionLengthHint
            (st.g_GuestState core).LastVmexitRip)]
      LogSendBufferCalls := st.LogSendBufferCalls ++ [pkt] } T
  exact ⟨t1, pkt, t2, hrip, hlen⟩

/-- C2: for a trap handled in vmx-root mode with no length hint, and a positive
`MAXIMUM_INSTR_SIZE` that does not wrap a `UINT64` when a page offset is added,
the length `L` the handler passes to the safe read at RIP is
`min(MAXIMUM_INSTR_SIZE, PAGE_SIZE - (RIP & 0xfff))`: it is at least 1, at most
`MAXIMUM_INSTR_SIZE`, keeps the read inside the page of RIP, and is the largest
such length. -/
theorem C2_bounded_instruction_read (K : Constants) (C : Collaborators) (st : State)
    (core T : Nat) (regs : GUEST_REGS) (reason : Nat)
    (ev : Option DEBUGGER_TRIGGERED_EVENT_DETAILS)
    (h1 : 1 ≤ K.MAXIMUM_INSTR_SIZE) (hM : K.MAXIMUM_INSTR_SIZE + PAGE_SIZE ≤ 2 ^ 64)
    (hroot : (st.g_GuestState core).IsOnVmxRootMode = true)
    (hhint : (st.g_GuestState core).InstructionLengthHint = 0) :
    (UdHandleBreakpointAndDebugBreakpoints K C st core T regs reason ev).2.MemoryReadCalls =
      st.MemoryReadCalls ++ [((st.g_GuestState core).LastVmexitRip,
        ExitInstructionLength K 0 (st.g_GuestState core).LastVmexitRip)] ∧
    ExitInstructionLength K 0 (st.g_GuestState core).LastVmexitRip =
      min K.MAXIMUM_INSTR_SIZE (PAGE_SIZE - ((st.g_GuestState core).LastVmexitRip &&& 0xfff)) ∧
    1 ≤ ExitInstructionLength K 0 (st.g_GuestState core).LastVmexitRip ∧
    ExitInstructionLength K 0 (st.g_GuestState core).LastVmexitRip ≤ K.MAXIMUM_INSTR_SIZE ∧
    ((st.g_GuestState core).LastVmexitRip &&& 0xfff) +
      ExitInstructionLength K 0 (st.g_GuestState core).LastVmexitRip ≤ PAGE_SIZE ∧
    ∀ L, L ≤ K.MAXIMUM_INSTR_SIZE →
      ((st.g_GuestState core).LastVmexitRip &&& 0xfff) + L ≤ PAGE_SIZE →
      L ≤ ExitInstructionLength K 0 (st.g_GuestState core).LastVmexitRip := by
  have htr := (UdHandle_root_traces K C st core T regs reason ev hroot).1
  rw [hhint] at htr
  refine ⟨htr, ?_⟩
  generalize (st.g_GuestState core).LastVmexitRip = rip
  have hoff : rip &&& 0xfff < 4096 := by rw [land_fff]; exact Nat.mod_lt _ (by norm_num)
  rw [ExitInstructionLength_no_hint K rip hM]
  unfold PAGE_SIZE at *
  refine ⟨rfl, ?_, ?_, ?_, ?_⟩
  · omega
  · omega
  · omega
  · intro L hL1 hL2; omega

/-- C9: for a trap in vmx-root mode whose token names a session, whatever the
safe read and the notification send do, after the handler the session is paused,
its saved `GuestRip` / `GuestRsp` are the live RIP / RSP read at the trap, the
live RSP is untouched and the live RIP is the spin address of the session. -/
theorem C9_unconditional_pause (K : Constants) (C : Collaborators) (st : State)
    (core T p : Nat) (regs : GUEST_REGS) (reason : Nat)
    (ev : Option DEBUGGER_TRIGGERED_EVENT_DETAILS)
    (s : USERMODE_DEBUGGING_THREADS_DETAILS)
    (hroot : (st.g_GuestState core).IsOnVmxRootMode = true)
    (hfind : AttachingFindThreadDebuggingDetailsByToken st T = some p)
    (hs : st.deref p = some s) :
    ∃ t, (UdHandleBreakpointAndDebugBreakpoints K C st core T regs reason ev).2.deref p = some t ∧
      t.IsPaused = true ∧ t.GuestRip = st.GUEST_RIP ∧ t.GuestRsp = st.GUEST_RSP ∧
      t.UsermodeReservedBuffer = s.UsermodeReservedBuffer ∧
      (UdHandleBreakpointAndDebugBreakpoints K C st core T regs reason ev).2.GUEST_RIP =
        t.UsermodeReservedBuffer ∧
      (UdHandleBreakpointAndDebugBreakpoints K C st core T regs reason ev).2.GUEST_RSP =
        st.GUEST_RSP := by
  obtain ⟨pkt, _, _, _, _, he⟩ := UdHandle_root K C st core T regs reason ev hroot
  rw [he, UdSpinThreadOnNop_found (s := s) (by exact hfind) (by exact hs)]
  exact ⟨_, deref_of_set st rfl hs, rfl, rfl, rfl, rfl, rfl, rfl⟩

/-- C10 (as stated, refuted): with an empty registry, a trap on a core in
vmx-root mode returns FALSE but a pause notification has been sent (and the
instruction bytes have been read) before the token was looked up. -/
theorem C10_counterexample_notification_sent :
    AttachingFindThreadDebuggingDetailsByToken (demoStateOf []) 7 = none ∧
    (UdHandleBreakpointAndDebugBreakpoints K3 demoCollaborators (demoStateOf []) 0 7
      ⟨[]⟩ 0 none).1 = some false ∧
    (UdHandleBreakpointAndDebugBreakpoints K3 demoCollaborators (demoStateOf []) 0 7
      ⟨[]⟩ 0 none).2.LogSendBufferCalls = [⟨0x401ffa, false, 0x246, 0, 6, [], ⟨[]⟩⟩] ∧
    (UdHandleBreakpointAndDebugBreakpoints K3 demoCollaborators (demoStateOf []) 0 7
      ⟨[]⟩ 0 none).2.MemoryReadCalls = [(0x401ffa, 6)] := by
  decide

/-- C10 (amended): for a trap whose token names no session the handler returns
FALSE and changes no session, no live guest register, no per-core state and
performs no command; outside vmx-root mode the state is unchanged altogether,
while in vmx-root mode exactly one safe read and one pause notification (with
the RIP of the exit) have been issued before the lookup failed. -/
theorem C10_no_session_no_pause (K : Constants) (C : Collaborators) (st : State)
    (core T : Nat) (regs : GUEST_REGS) (reason : Nat)
    (ev : Option DEBUGGER_TRIGGERED_EVENT_DETAILS)
    (hnone : AttachingFindThreadDebuggingDetailsByToken st T = none) :
    (UdHandleBreakpointAndDebugBreakpoints K C st core T regs reason ev).1 = some false ∧
    (UdHandleBreakpointAndDebugBreakpoints K C st core T regs reason
      ev).2.g_ThreadDebuggingDetailsListHead = st.g_ThreadDebuggingDetailsListHead ∧
    (UdHandleBreakpointAndDebugBreakpoints K C st core T regs reason ev).2.GUEST_RIP =
      st.GUEST_RIP ∧
    (UdHandleBreakpointAndDebugBreakpoints K C st core T regs reason ev).2.GUEST_RSP =
      st.GUEST_RSP ∧
    (UdHandleBreakpointAndDebugBreakpoints K C st core T regs reason ev).2.GUEST_RFLAGS =
      st.GUEST_RFLAGS ∧
    (UdHandleBreakpointAndDebugBreakpoints K C st core T regs reason ev).2.g_GuestState =
      st.g_GuestState ∧
    (UdHandleBreakpointAndDebugBreakpoints K C st core T regs reason ev).2.PerformedCommands =
      st.PerformedCommands ∧
    ((st.g_GuestState core).IsOnVmxRootMode = false →
      (UdHandleBreakpointAndDebugBreakpoints K C st core T regs reason ev).2 = st) ∧
    ((st.g_GuestState core).IsOnVmxRootMode = true →
      (UdHandleBreakpointAndDebugBreakpoints K C st core T regs reason ev).2.MemoryReadCalls =
        st.MemoryReadCalls ++ [((st.g_GuestState core).LastVmexitRip,
          ExitInstructionLength K (st.g_GuestState core).InstructionLengthHint
            (st.g_GuestState core).LastVmexitRip)] ∧
      ∃ pkt : DEBUGGEE_UD_PAUSED_PACKET,
        pkt.Rip = (st.g_GuestState core).LastVmexitRip ∧
        (UdHandleBreakpointAndDebugBreakpoints K C st core T regs reason
          ev).2.LogSendBufferCalls = st.LogSendBufferCalls ++ [pkt]) := by
  cases hroot : (st.g_GuestState core).IsOnVmxRootMode with
  | false =>
    rw [UdHandle_not_root K C st core T regs reason ev hroot]
    simp
  | true =>
    obtain ⟨pkt, hrip, _, _, _, he⟩ := UdHandle_root K C st core T regs reason ev hroot
    rw [he, UdSpinThreadOnNop_not_found (by exact hnone)]
    refine ⟨rfl, rfl, rfl, rfl, rfl, rfl, rfl, by simp, fun _ => ⟨rfl, pkt, hrip, rfl⟩⟩

/-- From a paused tracked session with an empty mailbox, a `CONTINUE` request
is accepted and the next poll resumes the thread at the saved RIP and RSP. -/
theorem continue_round (K : Constants) (st : State) (T p a b c d : Nat)
    (s : USERMODE_DEBUGGING_THREADS_DETAILS)
    (hwf : s.UdAction.length = K.MAX_USER_ACTIONS_FOR_THREADS)
    (hcap : 0 < K.MAX_USER_ACTIONS_FOR_THREADS)
    (hfind : AttachingFindThreadDebuggingDetailsByToken st T = some p)
    (hids : AttachingFindThreadDebuggingDetailsByProcessIdAndThreadId st
      st.CurrentProcessId st.CurrentThreadId = some p)
    (hs : st.deref p = some s) (hp : s.IsPaused = true)
    (hempty : ∀ x ∈ s.UdAction, x.ActionType = DEBUGGER_UD_COMMAND_ACTION_TYPE.NONE) :
    (UdDispatchUsermodeCommands K st
      ⟨T, ⟨DEBUGGER_UD_COMMAND_ACTION_TYPE.CONTINUE, a, b, c, d⟩⟩).1 = true ∧
    (UdCheckForCommand K (UdDispatchUsermodeCommands K st
      ⟨T, ⟨DEBUGGER_UD_COMMAND_ACTION_TYPE.CONTINUE, a, b, c, d⟩⟩).2).1 = true ∧
    (∃ t, (UdCheckForCommand K (UdDispatchUsermodeCommands K st
      ⟨T, ⟨DEBUGGER_UD_COMMAND_ACTION_TYPE.CONTINUE, a, b, c, d⟩⟩).2).2.deref p = some t ∧
      t.IsPaused = false) ∧
    (UdCheckForCommand K (UdDispatchUsermodeCommands K st
      ⟨T, ⟨DEBUGGER_UD_COMMAND_ACTION_TYPE.CONTINUE, a, b, c, d⟩⟩).2).2.GUEST_RIP = s.GuestRip ∧
    (UdCheckForCommand K (UdDispatchUsermodeCommands K st
      ⟨T, ⟨DEBUGGER_UD_COMMAND_ACTION_TYPE.CONTINUE, a, b, c, d⟩⟩).2).2.GUEST_RSP =
        s.GuestRsp := by
  cases hU : s.UdAction with
  | nil => rw [hU] at hwf; simp at hwf; omega
  | cons f free =>
    have hf : f.ActionType = DEBUGGER_UD_COMMAND_ACTION_TYPE.NONE :=
      hempty f (by rw [hU]; simp)
    have hlen : ([] : List DEBUGGER_UD_COMMAND_ACTION).length + 1 + free.length =
        K.MAX_USER_ACTIONS_FOR_THREADS := by
      rw [hU] at hwf; simp at hwf ⊢; omega
    have hd := UdDispatchUsermodeCommands_found K st
      ⟨T, ⟨DEBUGGER_UD_COMMAND_ACTION_TYPE.CONTINUE, a, b, c, d⟩⟩ hfind hs
    have hloop := dispatchLoop_prefix ⟨DEBUGGER_UD_COMMAND_ACTION_TYPE.CONTINUE, a, b, c, d⟩
      f [] free free.length (by simp) hf
    rw [hlen] at hloop
    simp only [hU, List.nil_append] at hd hloop
    rw [hloop] at hd
    rw [hd]
    have hs2 := deref_store_same
      (t := { s with UdAction := ⟨DEBUGGER_UD_COMMAND_ACTION_TYPE.CONTINUE, a, b, c, d⟩ :: free })
      hs
    have hids2 : AttachingFindThreadDebuggingDetailsByProcessIdAndThreadId
        (st.store p { s with
          UdAction := ⟨DEBUGGER_UD_COMMAND_ACTION_TYPE.CONTINUE, a, b, c, d⟩ :: free })
        st.CurrentProcessId st.CurrentThreadId = some p := by
      rw [← hids]
      exact findByIds_of_set st _ rfl hs rfl rfl
    have hpoll := poll_eq (K := K) (a := ⟨DEBUGGER_UD_COMMAND_ACTION_TYPE.CONTINUE, a, b, c, d⟩)
      hids2 hs2 hp (List.nil_append _).symm hlen (by simp) (by simp)
    simp only [if_true] at hpoll
    rw [hpoll]
    exact ⟨rfl, rfl, ⟨_, deref_of_set _ rfl hs2, rfl⟩, rfl, rfl⟩

/-- C8: a tracked thread with token `T` and an empty mailbox traps in vmx-root
mode. After the handler the session is paused and one pause packet carrying the
RIP captured at the exit has been sent; a `CONTINUE` request for `T` is then
accepted; the next poll by the thread returns TRUE, clears `IsPaused` and
leaves the live RIP and RSP at their values before the trap. -/
theorem C8_end_to_end_scenario (K : Constants) (C : Collaborators) (st : State)
    (core T p a b c d : Nat) (regs : GUEST_REGS) (reason : Nat)
    (ev : Option DEBUGGER_TRIGGERED_EVENT_DETAILS)
    (s : USERMODE_DEBUGGING_THREADS_DETAILS)
    (hwf : WellFormed K st) (hcap : 0 < K.MAX_USER_ACTIONS_FOR_THREADS)
    (hroot : (st.g_GuestState core).IsOnVmxRootMode = true)
    (hfind : AttachingFindThreadDebuggingDetailsByToken st T = some p)
    (hids : AttachingFindThreadDebuggingDetailsByProcessIdAndThreadId st
      st.CurrentProcessId st.CurrentThreadId = some p)
    (hs : st.deref p = some s)
    (hempty : ∀ x ∈ s.UdAction, x.ActionType = DEBUGGER_UD_COMMAND_ACTION_TYPE.NONE) :
    (∃ t, (UdHandleBreakpointAndDebugBreakpoints K C st core T regs reason ev).2.deref p =
        some t ∧ t.IsPaused = true) ∧
    (∃ pkt : DEBUGGEE_UD_PAUSED_PACKET,
      (UdHandleBreakpointAndDebugBreakpoints K C st core T regs reason ev).2.LogSendBufferCalls =
        st.LogSendBufferCalls ++ [pkt] ∧
      pkt.Rip = (st.g_GuestState core).LastVmexitRip) ∧
    (UdDispatchUsermodeCommands K
      (UdHandleBreakpointAndDebugBreakpoints K C st core T regs reason ev).2
      ⟨T, ⟨DEBUGGER_UD_COMMAND_ACTION_TYPE.CONTINUE, a, b, c, d⟩⟩).1 = true ∧
    (UdCheckForCommand K (UdDispatchUsermodeCommands K
      (UdHandleBreakpointAndDebugBreakpoints K C st core T regs reason ev).2
      ⟨T, ⟨DEBUGGER_UD_COMMAND_ACTION_TYPE.CONTINUE, a, b, c, d⟩⟩).2).1 = true ∧
    (∃ t, (UdCheckForCommand K (UdDispatchUsermodeCommands K
      (UdHandleBreakpointAndDebugBreakpoints K C st core T regs reason ev).2
      ⟨T, ⟨DEBUGGER_UD_COMMAND_ACTION_TYPE.CONTINUE, a, b, c, d⟩⟩).2).2.deref p = some t ∧
      t.IsPaused = false) ∧
    (UdCheckForCommand K (UdDispatchUsermodeCommands K
      (UdHandleBreakpointAndDebugBreakpoints K C st core T regs reason ev).2
      ⟨T, ⟨DEBUGGER_UD_COMMAND_ACTION_TYPE.CONTINUE, a, b, c, d⟩⟩).2).2.GUEST_RIP =
        st.GUEST_RIP ∧
    (UdCheckForCommand K (UdDispatchUsermodeCommands K
      (UdHandleBreakpointAndDebugBreakpoints K C st core T regs reason ev).2
      ⟨T, ⟨DEBUGGER_UD_COMMAND_ACTION_TYPE.CONTINUE, a, b, c, d⟩⟩).2).2.GUEST_RSP =
        st.GUEST_RSP := by
  have hl := hwf s (mem_of_deref hs)
  obtain ⟨pkt, hrip, _, _, _, he⟩ := UdHandle_root K C st core T regs reason ev hroot
  rw [he]
  have hinv : SessionAt { st with
      MemoryReadCalls := st.MemoryReadCalls ++
        [((st.g_GuestState core).LastVmexitRip,
          ExitInstructionLength K (st.g_GuestState core).InstructionLengthHint
            (st.g_GuestState core).LastVmexitRip)]
      LogSendBufferCalls := st.LogSendBufferCalls ++ [pkt] } T p s.UdAction :=
    ⟨hfind, s, hs, rfl⟩
  obtain ⟨hS1, hP1, s1, hs1, hp1, hacts1, hrip1, hrsp1, _, _⟩ := pause_step hinv
  have hlog : (UdSpinThreadOnNop { st with
      MemoryReadCalls := st.MemoryReadCalls ++
        [((st.g_GuestState core).LastVmexitRip,
          ExitInstructionLength K (st.g_GuestState core).InstructionLengthHint
            (st.g_GuestState core).LastVmexitRip)]
      LogSendBufferCalls := st.LogSendBufferCalls ++ [pkt] } T).2.LogSendBufferCalls =
      st.LogSendBufferCalls ++ [pkt] := by
    rw [UdSpinThreadOnNop_found (s := s) (by exact hfind) (by exact hs)]
    rfl
  obtain ⟨r1, r2, r3, r4, r5⟩ := continue_round K _ T p a b c d s1
    (by rw [hacts1]; exact hl) hcap hS1.1 (hP1 _ ⟨hids, rfl⟩).1 hs1 hp1
    (by rw [hacts1]; exact hempty)
  exact ⟨⟨s1, hs1, hp1⟩, ⟨pkt, hlog, hrip⟩, r1, r2, r3, r4.trans hrip1, r5.trans hrsp1⟩

/-! ## The theorems at concrete states -/

/-- C1 at `demoState`: pause then resume of the session with token 7. -/
theorem C1_witness :
    AttachingFindThreadDebuggingDetailsByToken demoState 7 = some 0 ∧
    (UdContinueThread (UdSpinThreadOnNop demoState 7).2 0).GUEST_RIP = demoState.GUEST_RIP ∧
    (UdContinueThread (UdSpinThreadOnNop demoState 7).2 0).GUEST_RSP = demoState.GUEST_RSP ∧
    ∃ s2, (UdContinueThread (UdSpinThreadOnNop demoState 7).2 0).deref 0 = some s2 ∧
      s2.IsPaused = false :=
  ⟨by decide, (C1_pause_resume_round_trip demoState 7 0 (by decide)).2⟩

/-- C2 at `demoState`, stopped 6 bytes before the end of a page. -/
theorem C2_witness :
    1 ≤ K3.MAXIMUM_INSTR_SIZE ∧ K3.MAXIMUM_INSTR_SIZE + PAGE_SIZE ≤ 2 ^ 64 ∧
    (demoState.g_GuestState 0).IsOnVmxRootMode = true ∧
    (demoState.g_GuestState 0).InstructionLengthHint = 0 ∧
    ExitInstructionLength K3 0 (demoState.g_GuestState 0).LastVmexitRip =
      min K3.MAXIMUM_INSTR_SIZE
        (PAGE_SIZE - ((demoState.g_GuestState 0).LastVmexitRip &&& 0xfff)) ∧
    1 ≤ ExitInstructionLength K3 0 (demoState.g_GuestState 0).LastVmexitRip :=
  ⟨by decide, by decide, by decide, by decide,
    (C2_bounded_instruction_read K3 demoCollaborators demoState 0 7 ⟨[]⟩ 0 none
      (by decide) (by decide) (by decide) (by decide)).2.1,
    (C2_bounded_instruction_read K3 demoCollaborators demoState 0 7 ⟨[]⟩ 0 none
      (by decide) (by decide) (by decide) (by decide)).2.2.1⟩

/-- C3 at `demoState` with a `CONTINUE` request for token 7. -/
theorem C3_witness :
    WellFormed K3 demoState ∧
    ((UdDispatchUsermodeCommands K3 demoState ⟨7, continueAction 1⟩).1 = true ↔
      ∃ p s, AttachingFindThreadDebuggingDetailsByToken demoState 7 = some p ∧
        demoState.deref p = some s ∧
        ∃ a ∈ s.UdAction, a.ActionType = DEBUGGER_UD_COMMAND_ACTION_TYPE.NONE) :=
  ⟨by decide, (C3_enqueue_result K3 demoState ⟨7, continueAction 1⟩ (by decide)).1⟩

/-- C4 at `demoState` with four `CONTINUE` requests for three slots. -/
theorem C4_witness :
    WellFormed K3 demoState ∧
    AttachingFindThreadDebuggingDetailsByToken demoState 7 = some 0 ∧
    (runOps K3 7 demoState
      ([continueAction 1, continueAction 2, continueAction 3, continueAction 4].map
        MailboxOp.enqueue)).1 = List.replicate K3.MAX_USER_ACTIONS_FOR_THREADS true ++ [false] :=
  ⟨by decide, by decide,
    C4_mailbox_full K3 demoState 7 0 (demoSession [emptySlot, emptySlot, emptySlot])
      [continueAction 1, continueAction 2, continueAction 3, continueAction 4]
      (by decide) (by decide) (by decide) (by decide) (by decide) (by decide)⟩

/-- C5 at `demoState`, whose session is not paused. -/
theorem C5_witness :
    AttachingFindThreadDebuggingDetailsByProcessIdAndThreadId demoState
      demoState.CurrentProcessId demoState.CurrentThreadId = some 0 ∧
    UdCheckForCommand K3 demoState = (false, demoState) :=
  ⟨by decide, C5_poll_not_handled K3 demoState
    (Or.inr ⟨0, demoSession [emptySlot, emptySlot, emptySlot], by decide, by decide,
      by decide⟩)⟩

/-- C6 at `demoPausedState`: the poll takes slot 1, the lowest occupied slot. -/
theorem C6_witness :
    WellFormed K3 demoPausedState ∧
    (UdCheckForCommand K3 demoPausedState).1 = true ∧
    (UdCheckForCommand K3 demoPausedState).2.PerformedCommands =
      demoPausedState.PerformedCommands ++ [continueAction 1] ∧
    ∃ t, (UdCheckForCommand K3 demoPausedState).2.deref 0 = some t ∧
      t.UdAction = [emptySlot, continueAction 1, continueAction 2].set 1 emptySlot ∧
      t.UdAction[1]? = some emptySlot ∧
      (∀ j, j ≠ 1 → t.UdAction[j]? = [emptySlot, continueAction 1, continueAction 2][j]?) ∧
      occupied t.UdAction + 1 = occupied [emptySlot, continueAction 1, continueAction 2] :=
  ⟨by decide,
    (C6_one_action_per_poll K3 demoPausedState 0
      { demoSession [emptySlot, continueAction 1, continueAction 2] with IsPaused := true }
      (by decide) (by decide) (by decide) (by decide)).1,
    (C6_one_action_per_poll K3 demoPausedState 0
      { demoSession [emptySlot, continueAction 1, continueAction 2] with IsPaused := true }
      (by decide) (by decide) (by decide) (by decide)).2.2 1 (continueAction 1)
      (by decide) (by decide) (by decide)⟩

/-- C7 (amended) at `demoState` with three slots: a single request, then a
batch of two, then another single request, each drained before the next enqueue;
four requests pass through three slots in order. -/
theorem C7_witness :
    WellFormed K3 demoState ∧
    disciplined K3.MAX_USER_ACTIONS_FOR_THREADS false 0
      [MailboxOp.enqueue (continueAction 1), MailboxOp.poll,
        MailboxOp.enqueue (continueAction 2), MailboxOp.enqueue (continueAction 3),
        MailboxOp.poll, MailboxOp.poll,
        MailboxOp.enqueue (continueAction 4), MailboxOp.poll] = true ∧
    fifoApplied []
      [MailboxOp.enqueue (continueAction 1), MailboxOp.poll,
        MailboxOp.enqueue (continueAction 2), MailboxOp.enqueue (continueAction 3),
        MailboxOp.poll, MailboxOp.poll,
        MailboxOp.enqueue (continueAction 4), MailboxOp.poll] =
      [continueAction 1, continueAction 2, continueAction 3, continueAction 4] ∧
    (runOps K3 7 demoState (withPauses
      [MailboxOp.enqueue (continueAction 1), MailboxOp.poll,
        MailboxOp.enqueue (continueAction 2), MailboxOp.enqueue (continueAction 3),
        MailboxOp.poll, MailboxOp.poll,
        MailboxOp.enqueue (continueAction 4), MailboxOp.poll])).2.PerformedCommands =
      demoState.PerformedCommands ++ fifoApplied []
        [MailboxOp.enqueue (continueAction 1), MailboxOp.poll,
          MailboxOp.enqueue (continueAction 2), MailboxOp.enqueue (continueAction 3),
          MailboxOp.poll, MailboxOp.poll,
          MailboxOp.enqueue (continueAction 4), MailboxOp.poll] :=
  ⟨by decide, by decide, by decide,
    (C7_fifo_without_overtaking K3 demoState 7 0
      (demoSession [emptySlot, emptySlot, emptySlot])
      [MailboxOp.enqueue (continueAction 1), MailboxOp.poll,
        MailboxOp.enqueue (continueAction 2), MailboxOp.enqueue (continueAction 3),
        MailboxOp.poll, MailboxOp.poll,
        MailboxOp.enqueue (continueAction 4), MailboxOp.poll]
      (by decide) (by decide) (by decide) (by decide) (by decide) (by decide)).2.1⟩

/-- C8 at `demoState`: trap, `CONTINUE` request, poll. -/
theorem C8_witness :
    WellFormed K3 demoState ∧ (demoState.g_GuestState 0).IsOnVmxRootMode = true ∧
    (UdDispatchUsermodeCommands K3
      (UdHandleBreakpointAndDebugBreakpoints K3 demoCollaborators demoState 0 7 ⟨[]⟩ 0 none).2
      ⟨7, ⟨DEBUGGER_UD_COMMAND_ACTION_TYPE.CONTINUE, 0, 0, 0, 0⟩⟩).1 = true ∧
    (UdCheckForCommand K3 (UdDispatchUsermodeCommands K3
      (UdHandleBreakpointAndDebugBreakpoints K3 demoCollaborators demoState 0 7 ⟨[]⟩ 0 none).2
      ⟨7, ⟨DEBUGGER_UD_COMMAND_ACTION_TYPE.CONTINUE, 0, 0, 0, 0⟩⟩).2).2.GUEST_RIP =
        demoState.GUEST_RIP ∧
    (UdCheckForCommand K3 (UdDispatchUsermodeCommands K3
      (UdHandleBreakpointAndDebugBreakpoints K3 demoCollaborators demoState 0 7 ⟨[]⟩ 0 none).2
      ⟨7, ⟨DEBUGGER_UD_COMMAND_ACTION_TYPE.CONTINUE, 0, 0, 0, 0⟩⟩).2).2.GUEST_RSP =
        demoState.GUEST_RSP :=
  ⟨by decide, by decide,
    (C8_end_to_end_scenario K3 demoCollaborators demoState 0 7 0 0 0 0 0 ⟨[]⟩ 0 none
      (demoSession [emptySlot, emptySlot, emptySlot])
      (by decide) (by decide) (by decide) (by decide) (by decide) (by decide)
      (by decide)).2.2.1,
    (C8_end_to_end_scenario K3 demoCollaborators demoState 0 7 0 0 0 0 0 ⟨[]⟩ 0 none
      (demoSession [emptySlot, emptySlot, emptySlot])
      (by decide) (by decide) (by decide) (by decide) (by decide) (by decide)
      (by decide)).2.2.2.2.2.1,
    (C8_end_to_end_scenario K3 demoCollaborators demoState 0 7 0 0 0 0 0 ⟨[]⟩ 0 none
      (demoSession [emptySlot, emptySlot, emptySlot])
      (by decide) (by decide) (by decide) (by decide) (by decide) (by decide)
      (by decide)).2.2.2.2.2.2⟩

/-- C9 at `demoState` with collaborators whose safe read copies nothing. -/
theorem C9_witness :
    (demoState.g_GuestState 0).IsOnVmxRootMode = true ∧
    AttachingFindThreadDebuggingDetailsByToken demoState 7 = some 0 ∧
    ∃ t, (UdHandleBreakpointAndDebugBreakpoints K3 demoCollaborators demoState 0 7
        ⟨[]⟩ 0 none).2.deref 0 = some t ∧
      t.IsPaused = true ∧ t.GuestRip = demoState.GUEST_RIP ∧
      t.GuestRsp = demoState.GUEST_RSP ∧
      t.UsermodeReservedBuffer =
        (demoSession [emptySlot, emptySlot, emptySlot]).UsermodeReservedBuffer ∧
      (UdHandleBreakpointAndDebugBreakpoints K3 demoCollaborators demoState 0 7
        ⟨[]⟩ 0 none).2.GUEST_RIP = t.UsermodeReservedBuffer ∧
      (UdHandleBreakpointAndDebugBreakpoints K3 demoCollaborators demoState 0 7
        ⟨[]⟩ 0 none).2.GUEST_RSP = demoState.GUEST_RSP :=
  ⟨by decide, by decide,
    C9_unconditional_pause K3 demoCollaborators demoState 0 7 0 ⟨[]⟩ 0 none
      (demoSession [emptySlot, emptySlot, emptySlot]) (by decide) (by decide) (by decide)⟩

/-- C10 (amended) at a state with an empty registry. -/
theorem C10_witness :
    AttachingFindThreadDebuggingDetailsByToken (demoStateOf []) 7 = none ∧
    (UdHandleBreakpointAndDebugBreakpoints K3 demoCollaborators (demoStateOf []) 0 7
      ⟨[]⟩ 0 none).1 = some false ∧
    (UdHandleBreakpointAndDebugBreakpoints K3 demoCollaborators (demoStateOf []) 0 7
      ⟨[]⟩ 0 none).2.g_ThreadDebuggingDetailsListHead =
        (demoStateOf []).g_ThreadDebuggingDetailsListHead ∧
    (UdHandleBreakpointAndDebugBreakpoints K3 demoCollaborators (demoStateOf []) 0 7
      ⟨[]⟩ 0 none).2.GUEST_RIP = (demoStateOf []).GUEST_RIP :=
  ⟨by decide,
    (C10_no_session_no_pause K3 demoCollaborators (demoStateOf []) 0 7 ⟨[]⟩ 0 none
      (by decide)).1,
    (C10_no_session_no_pause K3 demoCollaborators (demoStateOf []) 0 7 ⟨[]⟩ 0 none
      (by decide)).2.1,
    (C10_no_session_no_pause K3 demoCollaborators (demoStateOf []) 0 7 ⟨[]⟩ 0 none
      (by decide)).2.2.1⟩

/-! ## Traps outside vmx-root mode, and the pause packet -/

/-- C11: on a core whose `IsOnVmxRootMode` flag is false the handler returns
FALSE and the whole state is unchanged: no pause packet, no memory read, no
register write, no session change, whatever the token. -/
theorem C11_reject_outside_vmx_root (K : Constants) (C : Collaborators) (st : State)
    (core T : Nat) (regs : GUEST_REGS) (reason : Nat)
    (ev : Option DEBUGGER_TRIGGERED_EVENT_DETAILS)
    (hroot : (st.g_GuestState core).IsOnVmxRootMode = false) :
    UdHandleBreakpointAndDebugBreakpoints K C st core T regs reason ev = (some false, st) :=
  UdHandle_not_root K C st core T regs reason ev hroot

/-- C11 at a state whose cores are not in vmx-root mode, with the token of an
existing session. -/
theorem C11_witness :
    ((demoTrapState false 0).g_GuestState 0).IsOnVmxRootMode = false ∧
    AttachingFindThreadDebuggingDetailsByToken (demoTrapState false 0) 7 = some 0 ∧
    UdHandleBreakpointAndDebugBreakpoints K3 demoCollaborators (demoTrapState false 0) 0 7
      ⟨[]⟩ 0 none = (some false, demoTrapState false 0) :=
  ⟨by decide, by decide,
    C11_reject_outside_vmx_root K3 demoCollaborators (demoTrapState false 0) 0 7 ⟨[]⟩ 0 none
      (by decide)⟩

/-- In vmx-root mode the pause packet handed to `LogSendBuffer`, field by
field. -/
theorem UdHandle_root_packet (K : Constants) (C : Collaborators) (st : State)
    (core T : Nat) (regs : GUEST_REGS) (reason : Nat)
    (ev : Option DEBUGGER_TRIGGERED_EVENT_DETAILS)
    (hroot : (st.g_GuestState core).IsOnVmxRootMode = true) :
    (UdHandleBreakpointAndDebugBreakpoints K C st core T regs reason ev).2.LogSendBufferCalls =
      st.LogSendBufferCalls ++
        [⟨(st.g_GuestState core).LastVmexitRip, C.KdIsGuestOnUsermode32Bit, st.GUEST_RFLAGS,
          (match ev with
            | some e => e.Tag
            | none => 0),
          ExitInstructionLength K (st.g_GuestState core).InstructionLengthHint
            (st.g_GuestState core).LastVmexitRip,
          (C.MemoryMapperReadMemorySafeOnTargetProcess (st.g_GuestState core).LastVmexitRip
            (ExitInstructionLength K (st.g_GuestState core).InstructionLengthHint
              (st.g_GuestState core).LastVmexitRip)).take
            (ExitInstructionLength K (st.g_GuestState core).InstructionLengthHint
              (st.g_GuestState core).LastVmexitRip),
          regs⟩] := by
  cases ev with
  | none =>
    simp only [UdHandleBreakpointAndDebugBreakpoints, hroot, Bool.not_true, Bool.false_eq_true,
      if_false]
    rw [(UdSpinThreadOnNop_traces _ T).2.1]
  | some e =>
    simp only [UdHandleBreakpointAndDebugBreakpoints, hroot, Bool.not_true, Bool.false_eq_true,
      if_false]
    rw [(UdSpinThreadOnNop_traces _ T).2.1]

/-- C12 (as stated, refuted): the safe read copies 2 of the 6 bytes asked for;
the pause packet that is sent holds these 2 bytes but its `ReadInstructionLen`
is 6, the length asked for, not the 2 obtained. -/
theorem C12_counterexample_requested_length :
    ((demoState.g_GuestState 0).IsOnVmxRootMode = true) ∧
    ExitInstructionLength K3 (demoState.g_GuestState 0).InstructionLengthHint
      (demoState.g_GuestState 0).LastVmexitRip = 6 ∧
    (demoPartialCollaborators.MemoryMapperReadMemorySafeOnTargetProcess
      (demoState.g_GuestState 0).LastVmexitRip 6).length = 2 ∧
    (UdHandleBreakpointAndDebugBreakpoints K3 demoPartialCollaborators demoState 0 7
      ⟨[]⟩ 0 none).2.LogSendBufferCalls =
        [⟨0x401ffa, false, 0x246, 0, 6, [0xcc, 0x90], ⟨[]⟩⟩] := by
  decide

/-- C12 (amended): for every trap handled in vmx-root mode and every outcome of
the safe read, exactly one pause notification is sent; it holds the bytes the
read copied (at most the length asked for), while its `ReadInstructionLen` is
the length asked for, fixed before the read, whatever number of bytes was
obtained. -/
theorem C12_notification_after_read (K : Constants) (C : Collaborators) (st : State)
    (core T : Nat) (regs : GUEST_REGS) (reason : Nat)
    (ev : Option DEBUGGER_TRIGGERED_EVENT_DETAILS)
    (hroot : (st.g_GuestState core).IsOnVmxRootMode = true) :
    ∃ pkt : DEBUGGEE_UD_PAUSED_PACKET,
      (UdHandleBreakpointAndDebugBreakpoints K C st core T regs reason ev).2.LogSendBufferCalls =
        st.LogSendBufferCalls ++ [pkt] ∧
      pkt.ReadInstructionLen = ExitInstructionLength K
        (st.g_GuestState core).InstructionLengthHint (st.g_GuestState core).LastVmexitRip ∧
      pkt.InstructionBytesOnRip =
        (C.MemoryMapperReadMemorySafeOnTargetProcess (st.g_GuestState core).LastVmexitRip
          pkt.ReadInstructionLen).take pkt.ReadInstructionLen ∧
      pkt.InstructionBytesOnRip.length ≤ pkt.ReadInstructionLen :=
  ⟨_, UdHandle_root_packet K C st core T regs reason ev hroot, rfl, rfl, by simp⟩

/-- C12 (amended) at `demoState` with a safe read that copies two bytes. -/
theorem C12_witness :
    (demoState.g_GuestState 0).IsOnVmxRootMode = true ∧
    ∃ pkt : DEBUGGEE_UD_PAUSED_PACKET,
      (UdHandleBreakpointAndDebugBreakpoints K3 demoPartialCollaborators demoState 0 7
        ⟨[]⟩ 0 none).2.LogSendBufferCalls = demoState.LogSendBufferCalls ++ [pkt] ∧
      pkt.ReadInstructionLen = ExitInstructionLength K3
        (demoState.g_GuestState 0).InstructionLengthHint
        (demoState.g_GuestState 0).LastVmexitRip ∧
      pkt.InstructionBytesOnRip =
        (demoPartialCollaborators.MemoryMapperReadMemorySafeOnTargetProcess
          (demoState.g_GuestState 0).LastVmexitRip
          pkt.ReadInstructionLen).take pkt.ReadInstructionLen ∧
      pkt.InstructionBytesOnRip.length ≤ pkt.ReadInstructionLen :=
  ⟨by decide,
    C12_notification_after_read K3 demoPartialCollaborators demoState 0 7 ⟨[]⟩ 0 none
      (by decide)⟩

/-! ## Activation and deactivation -/

/-- C13: `UdInitializeUserDebugger` leaves an already active subsystem as it
is; on an inactive subsystem whose attaching initialisation succeeds it sets the
seed to `DebuggerThreadDebuggingTagStartSeed`, empties the session list, issues
the broadcast exactly once and sets the active flag, touching nothing else; when
the attaching initialisation fails the state is unchanged (still inactive, no
broadcast, seed and list as before). -/
theorem C13_activation (K : Constants) (C : Collaborators) (st : State) :
    (st.g_UserDebuggerState = true → UdInitializeUserDebugger K C st = st) ∧
    (st.g_UserDebuggerState = false → C.AttachingInitializeResult = true →
      UdInitializeUserDebugger K C st =
        { st with
          g_SeedOfUserDebuggingDetails := K.DebuggerThreadDebuggingTagStartSeed
          g_ThreadDebuggingDetailsListHead := []
          BroadcastCalls := st.BroadcastCalls + 1
          g_UserDebuggerState := true }) ∧
    (st.g_UserDebuggerState = false → C.AttachingInitializeResult = false →
      UdInitializeUserDebugger K C st = st) := by
  refine ⟨?_, ?_, ?_⟩
  · intro h
    simp [UdInitializeUserDebugger, h]
  · intro h hc
    simp [UdInitializeUserDebugger, h, hc]
  · intro h hc
    simp [UdInitializeUserDebugger, h, hc]

/-- C13 at an active state, and at an inactive state with a succeeding and with
a failing attaching initialisation. -/
theorem C13_witness :
    UdInitializeUserDebugger K3 demoCollaborators demoState = demoState ∧
    (UdInitializeUserDebugger K3 demoCollaborators demoInactiveState).BroadcastCalls = 1 ∧
    (UdInitializeUserDebugger K3 demoCollaborators
      demoInactiveState).g_SeedOfUserDebuggingDetails = 1 ∧
    UdInitializeUserDebugger K3 demoPartialCollaborators demoInactiveState =
      demoInactiveState :=
  ⟨(C13_activation K3 demoCollaborators demoState).1 (by decide),
    by rw [(C13_activation K3 demoCollaborators demoInactiveState).2.1 (by decide) (by decide)]
       decide,
    by rw [(C13_activation K3 demoCollaborators demoInactiveState).2.1 (by decide) (by decide)]
       decide,
    (C13_activation K3 demoPartialCollaborators demoInactiveState).2.2 (by decide)
      (by decide)⟩

/-- C14: `UdUninitializeUserDebugger` leaves an inactive subsystem as it is; on
an active one, whatever sessions the registry holds, it clears the active flag
and empties the registry, so that no token and no (process id, thread id) finds
a session any more, and a following successful activation yields an empty
session list, the seed `DebuggerThreadDebuggingTagStartSeed` and the active
flag. -/
theorem C14_deactivation_clears_all_state (K : Constants) (C : Collaborators) (st : State) :
    (st.g_UserDebuggerState = false → UdUninitializeUserDebugger st = st) ∧
    (st.g_UserDebuggerState = true →
      UdUninitializeUserDebugger st =
        { st with g_UserDebuggerState := false, g_ThreadDebuggingDetailsListHead := [] } ∧
      (∀ T, AttachingFindThreadDebuggingDetailsByToken (UdUninitializeUserDebugger st) T =
        none) ∧
      (∀ pid tid, AttachingFindThreadDebuggingDetailsByProcessIdAndThreadId
        (UdUninitializeUserDebugger st) pid tid = none) ∧
      (C.AttachingInitializeResult = true →
        (UdInitializeUserDebugger K C
          (UdUninitializeUserDebugger st)).g_ThreadDebuggingDetailsListHead = [] ∧
        (UdInitializeUserDebugger K C
          (UdUninitializeUserDebugger st)).g_SeedOfUserDebuggingDetails =
            K.DebuggerThreadDebuggingTagStartSeed ∧
        (UdInitializeUserDebugger K C
          (UdUninitializeUserDebugger st)).g_UserDebuggerState = true)) := by
  refine ⟨?_, ?_⟩
  · intro h
    simp [UdUninitializeUserDebugger, h]
  · intro h
    have he : UdUninitializeUserDebugger st =
        { st with g_UserDebuggerState := false, g_ThreadDebuggingDetailsListHead := [] } := by
      simp [UdUninitializeUserDebugger, AttachingRemoveAndFreeAllThreadDebuggingDetails, h]
    refine ⟨he, ?_, ?_, ?_⟩
    · intro T
      rw [he]
      rfl
    · intro pid tid
      rw [he]
      rfl
    · intro hc
      rw [he]
      simp [UdInitializeUserDebugger, hc]

/-- C14 at `demoState`, active with the session of token 7: after deactivation
the token finds nothing, and a new activation starts from the seed 1. -/
theorem C14_witness :
    demoState.g_UserDebuggerState = true ∧
    AttachingFindThreadDebuggingDetailsByToken demoState 7 = some 0 ∧
    AttachingFindThreadDebuggingDetailsByToken (UdUninitializeUserDebugger demoState) 7 =
      none ∧
    (UdInitializeUserDebugger K3 demoCollaborators
      (UdUninitializeUserDebugger demoState)).g_SeedOfUserDebuggingDetails =
        K3.DebuggerThreadDebuggingTagStartSeed :=
  ⟨by decide, by decide,
    ((C14_deactivation_clears_all_state K3 demoCollaborators demoState).2 (by decide)).2.1 7,
    (((C14_deactivation_clears_all_state K3 demoCollaborators demoState).2
      (by decide)).2.2.2 (by decide)).2.1⟩

/-! ## Pausing twice -/

/-- The session and the live registers after a pause. -/
theorem UdSpinThreadOnNop_session {st : State} {Token p : Nat}
    {s : USERMODE_DEBUGGING_THREADS_DETAILS}
    (hfind : AttachingFindThreadDebuggingDetailsByToken st Token = some p)
    (hs : st.deref p = some s) :
    (UdSpinThreadOnNop st Token).2.deref p =
      some { s with
        GuestRip := st.GUEST_RIP
        GuestRsp := st.GUEST_RSP
        IsPaused := true } ∧
    AttachingFindThreadDebuggingDetailsByToken (UdSpinThreadOnNop st Token).2 Token = some p ∧
    (UdSpinThreadOnNop st Token).2.GUEST_RIP = s.UsermodeReservedBuffer ∧
    (UdSpinThreadOnNop st Token).2.GUEST_RSP = st.GUEST_RSP := by
  have hf := (pause_step (⟨hfind, s, hs, rfl⟩ : SessionAt st Token p s.UdAction)).1.1
  refine ⟨?_, hf, ?_, ?_⟩
  · rw [UdSpinThreadOnNop_found hfind hs]
    exact deref_of_set st rfl hs
  · rw [UdSpinThreadOnNop_found hfind hs]
    rfl
  · rw [UdSpinThreadOnNop_found hfind hs]
    rfl

/-- C15: for a token that names a session, two calls of `UdSpinThreadOnNop`
with no resume in between leave the spin address in the saved `GuestRip` (the
live RIP at the second call), so a following `UdContinueThread` sets the live
RIP to the spin address; this differs from the RIP before the first pause
whenever that RIP was not the spin address itself. The saved RSP is still the
original one. -/
theorem C15_double_pause_overwrites (st : State) (Token p : Nat)
    (s : USERMODE_DEBUGGING_THREADS_DETAILS)
    (hfind : AttachingFindThreadDebuggingDetailsByToken st Token = some p)
    (hs : st.deref p = some s) :
    (∃ s1, (UdSpinThreadOnNop st Token).2.deref p = some s1 ∧ s1.GuestRip = st.GUEST_RIP ∧
      (UdSpinThreadOnNop st Token).2.GUEST_RIP = s.UsermodeReservedBuffer) ∧
    (∃ s2, (UdSpinThreadOnNop (UdSpinThreadOnNop st Token).2 Token).2.deref p = some s2 ∧
      s2.GuestRip = s.UsermodeReservedBuffer ∧ s2.GuestRsp = st.GUEST_RSP ∧
      s2.IsPaused = true) ∧
    (UdContinueThread (UdSpinThreadOnNop (UdSpinThreadOnNop st Token).2 Token).2 p).GUEST_RIP =
      s.UsermodeReservedBuffer ∧
    (st.GUEST_RIP ≠ s.UsermodeReservedBuffer →
      (UdContinueThread (UdSpinThreadOnNop (UdSpinThreadOnNop st Token).2
        Token).2 p).GUEST_RIP ≠ st.GUEST_RIP) := by
  obtain ⟨d1, f1, r1, q1⟩ := UdSpinThreadOnNop_session hfind hs
  obtain ⟨d2, _, _, _⟩ := UdSpinThreadOnNop_session f1 d1
  have hc : (UdContinueThread (UdSpinThreadOnNop (UdSpinThreadOnNop st Token).2
      Token).2 p).GUEST_RIP = s.UsermodeReservedBuffer := by
    rw [UdContinueThread_found d2]
    exact r1
  refine ⟨⟨_, d1, rfl, r1⟩, ⟨_, d2, r1, q1, rfl⟩, hc, ?_⟩
  intro hne
  rw [hc]
  exact fun h => hne h.symm

/-- C15 at `demoState`: the thread was at `0x401ffa`, the spin address is
`0x5000`. -/
theorem C15_witness :
    AttachingFindThreadDebuggingDetailsByToken demoState 7 = some 0 ∧
    demoState.GUEST_RIP = 0x401ffa ∧
    (UdContinueThread (UdSpinThreadOnNop (UdSpinThreadOnNop demoState 7).2 7).2 0).GUEST_RIP =
      (demoSession [emptySlot, emptySlot, emptySlot]).UsermodeReservedBuffer :=
  ⟨by decide, by decide,
    (C15_double_pause_overwrites demoState 7 0 (demoSession [emptySlot, emptySlot, emptySlot])
      (by decide) (by decide)).2.2.1⟩

/-! ## Enqueue: placement and frame -/

theorem getD_of_mem_take {acts : List DEBUGGER_UD_COMMAND_ACTION} {k : Nat}
    {b : DEBUGGER_UD_COMMAND_ACTION} (hb : b ∈ acts.take k) :
    ∃ j, j < k ∧ acts.getD j default = b := by
  obtain ⟨j, hj⟩ := List.mem_iff_getElem?.mp hb
  rw [List.getElem?_take] at hj
  by_cases hjk : j < k
  · simp only [hjk, if_true] at hj
    exact ⟨j, hjk, getD_of_getElem? hj⟩
  · simp [hjk] at hj

/-- C17: when `UdDispatchUsermodeCommands` returns TRUE, the slot written is
the lowest slot of the addressed session whose kind was `NONE`; afterwards it
holds exactly the action of the request; every other slot of the session, its
`IsPaused` flag and saved RIP / RSP, every other session and all the rest of
the state (live guest registers included) are unchanged. -/
theorem C17_enqueue_placement_and_frame (K : Constants) (st : State)
    (req : DEBUGGER_UD_COMMAND_PACKET) (hwf : WellFormed K st)
    (hok : (UdDispatchUsermodeCommands K st req).1 = true) :
    ∃ p s k f,
      AttachingFindThreadDebuggingDetailsByToken st req.ThreadDebuggingDetailToken = some p ∧
      st.deref p = some s ∧
      s.UdAction[k]? = some f ∧ f.ActionType = DEBUGGER_UD_COMMAND_ACTION_TYPE.NONE ∧
      (∀ b ∈ s.UdAction.take k, b.ActionType ≠ DEBUGGER_UD_COMMAND_ACTION_TYPE.NONE) ∧
      (UdDispatchUsermodeCommands K st req).2 =
        st.store p { s with UdAction := s.UdAction.set k req.UdAction } ∧
      (∃ t, (UdDispatchUsermodeCommands K st req).2.deref p = some t ∧
        t.UdAction[k]? = some req.UdAction ∧
        (∀ j, j ≠ k → t.UdAction[j]? = s.UdAction[j]?) ∧
        t.IsPaused = s.IsPaused ∧ t.GuestRip = s.GuestRip ∧ t.GuestRsp = s.GuestRsp) ∧
      (∀ q, q ≠ p → (UdDispatchUsermodeCommands K st req).2.deref q = st.deref q) ∧
      (UdDispatchUsermodeCommands K st req).2.GUEST_RIP = st.GUEST_RIP ∧
      (UdDispatchUsermodeCommands K st req).2.GUEST_RSP = st.GUEST_RSP ∧
      (UdDispatchUsermodeCommands K st req).2.GUEST_RFLAGS = st.GUEST_RFLAGS := by
  cases h : AttachingFindThreadDebuggingDetailsByToken st req.ThreadDebuggingDetailToken with
  | none => simp [UdDispatchUsermodeCommands, h] at hok
  | some p =>
    obtain ⟨s, hs, _⟩ := deref_of_findByToken h
    have hlen := hwf s (mem_of_deref hs)
    rw [UdDispatchUsermodeCommands_found K st req h hs] at hok ⊢
    rcases dispatchLoop_cases req.UdAction K.MAX_USER_ACTIONS_FOR_THREADS 0 s.UdAction with
      ⟨he, _⟩ | ⟨k, _, hk2, hk3, hk4, he⟩
    · rw [he] at hok
      simp at hok
    · have hk : k < s.UdAction.length := by omega
      rw [he]
      refine ⟨p, s, k, s.UdAction.getD k default, rfl, hs, getElem?_of_lt hk, hk3, ?_, rfl,
        ⟨_, deref_store_same hs, ?_, ?_, rfl, rfl, rfl⟩, ?_, rfl, rfl, rfl⟩
      · intro b hb
        obtain ⟨j, hj, hbj⟩ := getD_of_mem_take hb
        rw [← hbj]
        exact hk4 j (Nat.zero_le _) hj
      · simp [List.getElem?_set_self, hk]
      · intro j hj
        exact List.getElem?_set_ne (Ne.symm hj)
      · intro q hq
        exact deref_store_other (Ne.symm hq)

/-- C17 at `demoPausedState`, whose first slot is free: the request lands in
slot 0 in front of the two queued ones. -/
theorem C17_witness :
    WellFormed K3 demoPausedState ∧
    (UdDispatchUsermodeCommands K3 demoPausedState ⟨7, continueAction 3⟩).1 = true ∧
    ∃ p s k f,
      AttachingFindThreadDebuggingDetailsByToken demoPausedState 7 = some p ∧
      demoPausedState.deref p = some s ∧
      s.UdAction[k]? = some f ∧ f.ActionType = DEBUGGER_UD_COMMAND_ACTION_TYPE.NONE ∧
      (∀ b ∈ s.UdAction.take k, b.ActionType ≠ DEBUGGER_UD_COMMAND_ACTION_TYPE.NONE) ∧
      (UdDispatchUsermodeCommands K3 demoPausedState ⟨7, continueAction 3⟩).2 =
        demoPausedState.store p { s with UdAction := s.UdAction.set k (continueAction 3) } ∧
      (∃ t, (UdDispatchUsermodeCommands K3 demoPausedState ⟨7, continueAction 3⟩).2.deref p =
          some t ∧
        t.UdAction[k]? = some (continueAction 3) ∧
        (∀ j, j ≠ k → t.UdAction[j]? = s.UdAction[j]?) ∧
        t.IsPaused = s.IsPaused ∧ t.GuestRip = s.GuestRip ∧ t.GuestRsp = s.GuestRsp) ∧
      (∀ q, q ≠ p →
        (UdDispatchUsermodeCommands K3 demoPausedState ⟨7, continueAction 3⟩).2.deref q =
          demoPausedState.deref q) ∧
      (UdDispatchUsermodeCommands K3 demoPausedState ⟨7, continueAction 3⟩).2.GUEST_RIP =
        demoPausedState.GUEST_RIP ∧
      (UdDispatchUsermodeCommands K3 demoPausedState ⟨7, continueAction 3⟩).2.GUEST_RSP =
        demoPausedState.GUEST_RSP ∧
      (UdDispatchUsermodeCommands K3 demoPausedState ⟨7, continueAction 3⟩).2.GUEST_RFLAGS =
        demoPausedState.GUEST_RFLAGS :=
  ⟨by decide, by decide,
    C17_enqueue_placement_and_frame K3 demoPausedState ⟨7, continueAction 3⟩ (by decide)
      (by decide)⟩

/-! ## Unrecognised action kinds -/

/-- C18: for every kind other than `CONTINUE`, `UdPerformCommand` returns FALSE
and leaves the live RIP / RSP, the per-core state (`IncrementRip`) and every
session (`IsPaused`) as they were; for `CONTINUE` it returns TRUE; and when the
first occupied slot of a tracked, paused session holds a kind that is neither
`NONE` nor `CONTINUE`, the poll returns TRUE, the slot is cleared, the session
stays paused and the live registers are unchanged. -/
theorem C18_unrecognized_kind_no_op (K : Constants) (st : State) (p : Nat)
    (s : USERMODE_DEBUGGING_THREADS_DETAILS)
    (front rest : List DEBUGGER_UD_COMMAND_ACTION) (x : DEBUGGER_UD_COMMAND_ACTION)
    (hids : AttachingFindThreadDebuggingDetailsByProcessIdAndThreadId st
      st.CurrentProcessId st.CurrentThreadId = some p)
    (hs : st.deref p = some s) (hp : s.IsPaused = true)
    (hacts : s.UdAction = front ++ x :: rest)
    (hlen : s.UdAction.length = K.MAX_USER_ACTIONS_FOR_THREADS)
    (hfront : ∀ b ∈ front, b.ActionType = DEBUGGER_UD_COMMAND_ACTION_TYPE.NONE)
    (hx1 : x.ActionType ≠ DEBUGGER_UD_COMMAND_ACTION_TYPE.NONE)
    (hx2 : x.ActionType ≠ DEBUGGER_UD_COMMAND_ACTION_TYPE.CONTINUE) :
    (∀ (u : State) (q : Nat) (kind : DEBUGGER_UD_COMMAND_ACTION_TYPE) (a b c d : Nat),
      kind ≠ DEBUGGER_UD_COMMAND_ACTION_TYPE.CONTINUE →
      (UdPerformCommand u q kind a b c d).1 = false ∧
      (UdPerformCommand u q kind a b c d).2.GUEST_RIP = u.GUEST_RIP ∧
      (UdPerformCommand u q kind a b c d).2.GUEST_RSP = u.GUEST_RSP ∧
      (UdPerformCommand u q kind a b c d).2.g_GuestState = u.g_GuestState ∧
      (UdPerformCommand u q kind a b c d).2.g_ThreadDebuggingDetailsListHead =
        u.g_ThreadDebuggingDetailsListHead) ∧
    (∀ (u : State) (q a b c d : Nat),
      (UdPerformCommand u q DEBUGGER_UD_COMMAND_ACTION_TYPE.CONTINUE a b c d).1 = true) ∧
    (UdCheckForCommand K st).1 = true ∧
    (∃ t, (UdCheckForCommand K st).2.deref p = some t ∧ t.IsPaused = true ∧
      t.UdAction = front ++ emptySlot :: rest ∧
      t.GuestRip = s.GuestRip ∧ t.GuestRsp = s.GuestRsp) ∧
    (UdCheckForCommand K st).2.GUEST_RIP = st.GUEST_RIP ∧
    (UdCheckForCommand K st).2.GUEST_RSP = st.GUEST_RSP ∧
    (UdCheckForCommand K st).2.g_GuestState = st.g_GuestState := by
  refine ⟨?_, ?_, ?_⟩
  · intro u q kind a b c d hk
    rw [UdPerformCommand_other u q kind hk]
    exact ⟨rfl, rfl, rfl, rfl, rfl⟩
  · intro u q a b c d
    rfl
  · have hl : front.length + 1 + rest.length = K.MAX_USER_ACTIONS_FOR_THREADS := by
      rw [← hlen, hacts]; simp; omega
    rw [poll_eq hids hs hp hacts hl hfront hx1, if_neg hx2]
    exact ⟨rfl, ⟨_, deref_of_set st rfl hs, hp, rfl, rfl, rfl⟩, rfl, rfl, rfl⟩

/-- C18 at `demoUnknownKindState`: the poll clears slot 1 and the session stays
paused. -/
theorem C18_witness :
    AttachingFindThreadDebuggingDetailsByProcessIdAndThreadId demoUnknownKindState
      demoUnknownKindState.CurrentProcessId demoUnknownKindState.CurrentThreadId = some 0 ∧
    (UdCheckForCommand K3 demoUnknownKindState).1 = true ∧
    (∃ t, (UdCheckForCommand K3 demoUnknownKindState).2.deref 0 = some t ∧
      t.IsPaused = true ∧ t.UdAction = [emptySlot] ++ emptySlot :: [continueAction 2] ∧
      t.GuestRip = 0 ∧ t.GuestRsp = 0) ∧
    (UdCheckForCommand K3 demoUnknownKindState).2.GUEST_RIP = demoUnknownKindState.GUEST_RIP :=
  ⟨by decide,
    (C18_unrecognized_kind_no_op K3 demoUnknownKindState 0
      { demoSession [emptySlot, unknownAction, continueAction 2] with IsPaused := true }
      [emptySlot] [continueAction 2] unknownAction
      (by decide) (by decide) (by decide) (by decide) (by decide) (by decide) (by decide)
      (by decide)).2.2.1,
    (C18_unrecognized_kind_no_op K3 demoUnknownKindState 0
      { demoSession [emptySlot, unknownAction, continueAction 2] with IsPaused := true }
      [emptySlot] [continueAction 2] unknownAction
      (by decide) (by decide) (by decide) (by decide) (by decide) (by decide) (by decide)
      (by decide)).2.2.2.1,
    (C18_unrecognized_kind_no_op K3 demoUnknownKindState 0
      { demoSession [emptySlot, unknownAction, continueAction 2] with IsPaused := true }
      [emptySlot] [continueAction 2] unknownAction
      (by decide) (by decide) (by decide) (by decide) (by decide) (by decide) (by decide)
      (by decide)).2.2.2.2.1⟩

/-! ## The read length with a hint -/

/-- C19 (as stated, refuted): in vmx-root mode at page offset `0xffa`, a length
hint of 8 makes the handler read and record 8 bytes, 2 of them beyond the end
of the page, and a hint of 100 makes it read and record 100 bytes, more than
`MAXIMUM_INSTR_SIZE` = 16. -/
theorem C19_counterexample_hint_unbounded :
    ((demoTrapState true 8).g_GuestState 0).IsOnVmxRootMode = true ∧
    (UdHandleBreakpointAndDebugBreakpoints K3 demoCollaborators (demoTrapState true 8) 0 7
      ⟨[]⟩ 0 none).2.MemoryReadCalls = [(0x401ffa, 8)] ∧
    (UdHandleBreakpointAndDebugBreakpoints K3 demoCollaborators (demoTrapState true 8) 0 7
      ⟨[]⟩ 0 none).2.LogSendBufferCalls = [⟨0x401ffa, false, 0x246, 0, 8, [], ⟨[]⟩⟩] ∧
    ¬ ((0x401ffa &&& 0xfff) + 8 ≤ PAGE_SIZE) ∧
    (UdHandleBreakpointAndDebugBreakpoints K3 demoCollaborators (demoTrapState true 100) 0 7
      ⟨[]⟩ 0 none).2.MemoryReadCalls = [(0x401ffa, 100)] ∧
    (UdHandleBreakpointAndDebugBreakpoints K3 demoCollaborators (demoTrapState true 100) 0 7
      ⟨[]⟩ 0 none).2.LogSendBufferCalls = [⟨0x401ffa, false, 0x246, 0, 100, [], ⟨[]⟩⟩] ∧
    ¬ (100 ≤ K3.MAXIMUM_INSTR_SIZE) := by
  decide

/-- C19 (amended): for every trap handled in vmx-root mode the length passed to
the safe read and recorded in `PausePacket.ReadInstructionLen` is the computed
`ExitInstructionLength`; with a zero hint it is at most `MAXIMUM_INSTR_SIZE`
and, added to the page offset of RIP, at most `PAGE_SIZE`; with a non-zero hint
it is the hint itself (as a `ULONG`), with no bound of its own. -/
theorem C19_read_length_bounds (K : Constants) (C : Collaborators) (st : State)
    (core T : Nat) (regs : GUEST_REGS) (reason : Nat)
    (ev : Option DEBUGGER_TRIGGERED_EVENT_DETAILS)
    (hM : K.MAXIMUM_INSTR_SIZE + PAGE_SIZE ≤ 2 ^ 64)
    (hroot : (st.g_GuestState core).IsOnVmxRootMode = true) :
    (UdHandleBreakpointAndDebugBreakpoints K C st core T regs reason ev).2.MemoryReadCalls =
      st.MemoryReadCalls ++ [((st.g_GuestState core).LastVmexitRip,
        ExitInstructionLength K (st.g_GuestState core).InstructionLengthHint
          (st.g_GuestState core).LastVmexitRip)] ∧
    (∃ pkt : DEBUGGEE_UD_PAUSED_PACKET,
      (UdHandleBreakpointAndDebugBreakpoints K C st core T regs reason ev).2.LogSendBufferCalls =
        st.LogSendBufferCalls ++ [pkt] ∧
      pkt.ReadInstructionLen = ExitInstructionLength K
        (st.g_GuestState core).InstructionLengthHint (st.g_GuestState core).LastVmexitRip) ∧
    ((st.g_GuestState core).InstructionLengthHint = 0 →
      ExitInstructionLength K (st.g_GuestState core).InstructionLengthHint
        (st.g_GuestState core).LastVmexitRip ≤ K.MAXIMUM_INSTR_SIZE ∧
      ((st.g_GuestState core).LastVmexitRip &&& 0xfff) +
        ExitInstructionLength K (st.g_GuestState core).InstructionLengthHint
          (st.g_GuestState core).LastVmexitRip ≤ PAGE_SIZE) ∧
    ((st.g_GuestState core).InstructionLengthHint ≠ 0 →
      ExitInstructionLength K (st.g_GuestState core).InstructionLengthHint
        (st.g_GuestState core).LastVmexitRip =
          (st.g_GuestState core).InstructionLengthHint % 2 ^ 32) := by
  obtain ⟨t1, pkt, t2, _, t3⟩ := UdHandle_root_traces K C st core T regs reason ev hroot
  refine ⟨t1, ⟨pkt, t2, t3⟩, ?_, ?_⟩
  · intro h0
    rw [h0]
    generalize (st.g_GuestState core).LastVmexitRip = rip
    have hoff : rip &&& 0xfff < 4096 := by rw [land_fff]; exact Nat.mod_lt _ (by norm_num)
    rw [ExitInstructionLength_no_hint K rip hM]
    unfold PAGE_SIZE at *
    constructor <;> omega
  · intro hne
    simp [ExitInstructionLength, hne]

/-- C19 (amended) at a state with the hint 8 at page offset `0xffa`. -/
theorem C19_witness :
    K3.MAXIMUM_INSTR_SIZE + PAGE_SIZE ≤ 2 ^ 64 ∧
    ((demoTrapState true 8).g_GuestState 0).IsOnVmxRootMode = true ∧
    ExitInstructionLength K3 ((demoTrapState true 8).g_GuestState 0).InstructionLengthHint
      ((demoTrapState true 8).g_GuestState 0).LastVmexitRip =
        ((demoTrapState true 8).g_GuestState 0).InstructionLengthHint % 2 ^ 32 :=
  ⟨by decide, by decide,
    (C19_read_length_bounds K3 demoCollaborators (demoTrapState true 8) 0 7 ⟨[]⟩ 0 none
      (by decide) (by decide)).2.2.2 (by decide)⟩

end HyperDbg
